import Mathlib

/-!
Shallow embedding of the Maya "Camera Manager" tool
(`dimogu_final1_assignment.py`) and verification of the spec's claims.

The Python module is thin event wiring over `maya.cmds`.  We embed it as
pure functions over an explicit model of the host (Maya) scene plus the
tool's UI widgets.  Host commands may fail: Maya raises Python exceptions
(`RuntimeError` for command failures); we model the host's choice of which
command fails, and the host-chosen results of node creation, through a
`Host` oracle given as an input.  Each embedded handler returns the new
state, a trace of the host commands and UI calls it issued (in order), and
the exception that escaped the handler, if any.
-/

namespace CameraManager

/-- Kind of a Python exception raised inside a handler.  `maya.cmds`
failures raise `RuntimeError`; indexing `None` (as in `listRelatives(...)[0]`
when `listRelatives` returns `None`) raises `TypeError`. -/
inductive ErrKind where
  | runtimeError
  | typeError
deriving DecidableEq, Repr

/-- A Python exception: its kind and its message (`str(e)`). -/
structure Err where
  kind : ErrKind
  msg : String
deriving DecidableEq, Repr

/-- A camera shape node of the Maya scene: its name, the name of its
transform parent (Maya shapes always live under a transform), and the
current value of its `renderable` attribute. -/
structure CamShape where
  name : String
  parent : String
  renderable : Int
deriving DecidableEq, Repr

/-- The host (Maya) scene as far as this tool observes and mutates it:
the camera shape nodes in the order `cmds.ls(type="camera")` returns
them, the names of any further (non-camera) nodes, the per-node per-attr
lock flags, and the active selection (`cmds.select`). -/
structure Scene where
  camShapes : List CamShape
  nodes : List String
  lockOf : String → String → Bool
  activeSel : List String

/-- `cmds.objExists`: a name exists if it is a scene node, a camera shape
or a camera transform. -/
def Scene.objExists (sc : Scene) (n : String) : Bool :=
  sc.nodes.contains n || sc.camShapes.any (fun c => c.name == n || c.parent == n)

/-- Full state the embedded program acts on: the host scene, the
`cameraList` textScrollList contents and selection, and the value of the
module's only module-level data binding, `IMG_PATH`. -/
structure State where
  scene : Scene
  scroll : List String
  selection : List String
  moduleImg : String

/-- Events recorded while a handler runs: each host command / UI call it
issues, plus a `cmdFailed` marker right after a host command that the host
failed. -/
inductive Event where
  | lsCameras
  | listRelativesParent (shape : String)
  | listRelativesShapes (node : String)
  | scrollRemoveAll
  | scrollAppend (item : String)
  | scrollQuerySelect
  | cmdCamera
  | cmdDelete (node : String)
  | cmdRename (old newName : String)
  | cmdSetAttrLock (node attr : String) (lock : Bool)
  | cmdSetAttrRenderable (shape : String) (v : Int)
  | cmdSelect (items : List String)
  | cmdExportFile (path : String)
  | cmdImportFile (path : String)
  | cmdDuplicate (node : String)
  | getAttrLock (node attr : String)
  | getAttrVal (plug : String)
  | confirmDialog (title msg : String)
  | promptDialogEv
  | fileDialogEv
  | warning (msg : String)
  | inView (msg : String)
  | objExistsQ (n : String)
  | cmdFailed (msg : String)
deriving DecidableEq, Repr

/-- Does the event denote a host command that mutates host state
(scene graph, current selection, or a file on disk)? -/
def Event.isSceneMutating : Event → Bool
  | .cmdCamera => true
  | .cmdDelete _ => true
  | .cmdRename _ _ => true
  | .cmdSetAttrLock _ _ _ => true
  | .cmdSetAttrRenderable _ _ => true
  | .cmdSelect _ => true
  | .cmdExportFile _ => true
  | .cmdImportFile _ => true
  | .cmdDuplicate _ => true
  | _ => false

/-- The host oracle: which host command invocations fail (and with what
exception), and the host-chosen results of the commands that create or
rename nodes. -/
structure Host where
  cameraFail : Option Err
  newCamera : CamShape
  deleteFail : String → Option Err
  renameFail : String → String → Option Err
  renameResolve : String → String → String
  getLockFail : String → String → Option Err
  setLockFail : String → String → Option Err
  setRenderableFail : String → Option Err
  duplicateFail : String → Option Err
  duplicateResult : String → CamShape
  selectFail : Option Err
  exportFail : Option Err
  importFail : Option Err
  importedCams : List CamShape
  getAttrValFail : String → Option Err
  attrVal : String → Int

/-- The user's dialog responses consumed by one handler invocation:
the `confirmDialog` button, the `promptDialog` button and entered text,
and the `fileDialog2` result (`none` models Maya returning `None`). -/
structure DialogInput where
  confirmAnswer : String
  promptResult : String
  promptText : String
  filePaths : Option (List String)

/-- Result of running an embedded fragment: final state, trace of issued
events, and the outcome (`ok` value, or the exception currently
propagating). -/
structure HRv (α : Type) where
  st : State
  tr : List Event
  res : Except Err α

abbrev HR := HRv Unit

/-- Sequencing: run the continuation only when no exception is
propagating; traces concatenate. -/
def HRv.andThen : HRv α → (α → State → HRv β) → HRv β
  | ⟨s, tr, .ok a⟩, k =>
    let r2 := k a s
    ⟨r2.st, tr ++ r2.tr, r2.res⟩
  | ⟨s, tr, .error e⟩, _ => ⟨s, tr, .error e⟩

/-- Python `try ... except Exception as e: ...`: every exception is
caught. -/
def HRv.catchAll (r : HRv Unit) (k : Err → State → HRv Unit) : HRv Unit :=
  match r.res with
  | .error e =>
    let r2 := k e r.st
    ⟨r2.st, r.tr ++ r2.tr, r2.res⟩
  | .ok _ => r

/-- Python `try ... except RuntimeError as e: ...`: only `RuntimeError`
is caught, anything else keeps propagating. -/
def HRv.catchRuntime (r : HRv Unit) (k : Err → State → HRv Unit) : HRv Unit :=
  match r.res with
  | .error e =>
    if e.kind = ErrKind.runtimeError then
      let r2 := k e r.st
      ⟨r2.st, r.tr ++ r2.tr, r2.res⟩
    else r
  | .ok _ => r

/-- Prepend already-recorded events to a fragment's trace. -/
def HRv.withTr (pre : List Event) (r : HRv α) : HRv α :=
  ⟨r.st, pre ++ r.tr, r.res⟩

/-! ### Host command primitives (`maya.cmds`) -/

/-- `cmds.camera()`: create a new camera (transform + shape chosen by the
host). -/
def pCamera (h : Host) (s : State) : HR :=
  match h.cameraFail with
  | some e => ⟨s, [.cmdCamera, .cmdFailed e.msg], .error e⟩
  | none =>
    ⟨{ s with scene := { s.scene with camShapes := s.scene.camShapes ++ [h.newCamera] } },
      [.cmdCamera], .ok ()⟩

/-- `cmds.delete(n)`: remove the node and its children (for a camera
transform, its shapes). -/
def pDelete (h : Host) (n : String) (s : State) : HR :=
  match h.deleteFail n with
  | some e => ⟨s, [.cmdDelete n, .cmdFailed e.msg], .error e⟩
  | none =>
    ⟨{ s with scene :=
        { s.scene with
          camShapes := s.scene.camShapes.filter (fun c => !(c.name == n) && !(c.parent == n)),
          nodes := s.scene.nodes.filter (fun m => !(m == n)) } },
      [.cmdDelete n], .ok ()⟩

/-- Rename every occurrence of node name `old` to `res` in the scene. -/
def sceneRename (sc : Scene) (old res : String) : Scene :=
  { sc with
    nodes := sc.nodes.map (fun m => if m == old then res else m),
    camShapes := sc.camShapes.map (fun c =>
      { c with
        name := if c.name == old then res else c.name,
        parent := if c.parent == old then res else c.parent }) }

/-- `cmds.rename(old, new)`: the host resolves the requested name (e.g.
trailing `#` numbering) and returns the actual new name. -/
def pRename (h : Host) (old newName : String) (s : State) : HRv String :=
  match h.renameFail old newName with
  | some e => ⟨s, [.cmdRename old newName, .cmdFailed e.msg], .error e⟩
  | none =>
    let res := h.renameResolve old newName
    ⟨{ s with scene := sceneRename s.scene old res }, [.cmdRename old newName], .ok res⟩

/-- `cmds.getAttr(node + "." + attr, lock=True)`. -/
def pGetLock (h : Host) (node attr : String) (s : State) : HRv Bool :=
  match h.getLockFail node attr with
  | some e => ⟨s, [.getAttrLock node attr, .cmdFailed e.msg], .error e⟩
  | none => ⟨s, [.getAttrLock node attr], .ok (s.scene.lockOf node attr)⟩

/-- `cmds.setAttr(node + "." + attr, lock=b)`. -/
def pSetLock (h : Host) (node attr : String) (b : Bool) (s : State) : HR :=
  match h.setLockFail node attr with
  | some e => ⟨s, [.cmdSetAttrLock node attr b, .cmdFailed e.msg], .error e⟩
  | none =>
    ⟨{ s with scene :=
        { s.scene with lockOf := fun n a =>
            if n == node && a == attr then b else s.scene.lockOf n a } },
      [.cmdSetAttrLock node attr b], .ok ()⟩

/-- `cmds.setAttr(shape + ".renderable", v)`. -/
def pSetRenderable (h : Host) (shape : String) (v : Int) (s : State) : HR :=
  match h.setRenderableFail shape with
  | some e => ⟨s, [.cmdSetAttrRenderable shape v, .cmdFailed e.msg], .error e⟩
  | none =>
    ⟨{ s with scene :=
        { s.scene with camShapes := s.scene.camShapes.map (fun c =>
            if c.name == shape then { c with renderable := v } else c) } },
      [.cmdSetAttrRenderable shape v], .ok ()⟩

/-- `cmds.duplicate(n, renameChildren=True)[0]`: the host adds a fresh
camera (transform + shape) and the code keeps the new transform's name. -/
def pDuplicate (h : Host) (n : String) (s : State) : HRv String :=
  match h.duplicateFail n with
  | some e => ⟨s, [.cmdDuplicate n, .cmdFailed e.msg], .error e⟩
  | none =>
    let c := h.duplicateResult n
    ⟨{ s with scene := { s.scene with camShapes := s.scene.camShapes ++ [c] } },
      [.cmdDuplicate n], .ok c.parent⟩

/-- `cmds.select(items, replace=True)`. -/
def pSelect (h : Host) (items : List String) (s : State) : HR :=
  match h.selectFail with
  | some e => ⟨s, [.cmdSelect items, .cmdFailed e.msg], .error e⟩
  | none => ⟨{ s with scene := { s.scene with activeSel := items } }, [.cmdSelect items], .ok ()⟩

/-- `cmds.file(path, ..., exportSelected=True)`. -/
def pExportFile (h : Host) (path : String) (s : State) : HR :=
  match h.exportFail with
  | some e => ⟨s, [.cmdExportFile path, .cmdFailed e.msg], .error e⟩
  | none => ⟨s, [.cmdExportFile path], .ok ()⟩

/-- `cmds.file(path, i=True, ...)`: the host adds the file's cameras to
the scene. -/
def pImportFile (h : Host) (path : String) (s : State) : HR :=
  match h.importFail with
  | some e => ⟨s, [.cmdImportFile path, .cmdFailed e.msg], .error e⟩
  | none =>
    ⟨{ s with scene := { s.scene with camShapes := s.scene.camShapes ++ h.importedCams } },
      [.cmdImportFile path], .ok ()⟩

/-- `cmds.getAttr(plug)` for the numeric reads of `show_camera_info`. -/
def pGetAttrNum (h : Host) (plug : String) (s : State) : HRv Int :=
  match h.getAttrValFail plug with
  | some e => ⟨s, [.getAttrVal plug, .cmdFailed e.msg], .error e⟩
  | none => ⟨s, [.getAttrVal plug], .ok (h.attrVal plug)⟩

/-- `cmds.inViewMessage(...)`: purely visual. -/
def pInView (m : String) (s : State) : HR :=
  ⟨s, [.inView m], .ok ()⟩

/-- `cmds.warning(...)`: a non-dialog warning. -/
def pWarning (m : String) (s : State) : HR :=
  ⟨s, [.warning m], .ok ()⟩

/-- An error dialog `cmds.confirmDialog(title="Error", message=str(e), ...)`. -/
def errDialog (e : Err) (s : State) : HR :=
  ⟨s, [.confirmDialog "Error" e.msg], .ok ()⟩

/-- `cmds.listRelatives(cam, shapes=True, type="camera")[0]`: `None[0]`
raises `TypeError` when the transform has no camera shape; a missing node
makes `listRelatives` itself fail with a `RuntimeError`. -/
def pFirstCamShape (cam : String) (s : State) : HRv String :=
  if s.scene.objExists cam then
    match (s.scene.camShapes.filter (fun c => c.parent == cam)).map (fun c => c.name) with
    | [] => ⟨s, [.listRelativesShapes cam],
        .error ⟨.typeError, "\x27NoneType\x27 object is not subscriptable"⟩⟩
    | sh :: _ => ⟨s, [.listRelativesShapes cam], .ok sh⟩
  else
    ⟨s, [.listRelativesShapes cam, .cmdFailed ("No object matches name: " ++ cam)],
      .error ⟨.runtimeError, "No object matches name: " ++ cam⟩⟩

/-! ### The module's functions -/

/-- The module-level constant
`IMG_PATH = os.path.join(os.path.dirname(__file__), "img")`. -/
def IMG_PATH (scriptDir : String) : String := scriptDir ++ "/img"

/-- The list comprehension
`[cmds.listRelatives(c, parent=True)[0] for c in cameras]`:
one `listRelatives` call per shape name, stopping at the first failure
(indexing the result of a failed lookup). -/
def collectParents (sc : Scene) : List String → List Event × Except Err (List String)
  | [] => ([], .ok [])
  | c :: rest =>
    match (sc.camShapes.find? (fun k => k.name == c)).map (fun k => k.parent) with
    | none => ([.listRelativesParent c],
        .error ⟨.runtimeError, "No object matches name: " ++ c⟩)
    | some p =>
      let r2 := collectParents sc rest
      (.listRelativesParent c :: r2.1, r2.2.map (fun ps => p :: ps))

/-- The `for cam in cameras:` append loop of `list_cameras`. -/
def appendLoop : List String → State → State × List Event
  | [], s => (s, [])
  | cam :: rest, s =>
    let s1 := { s with scroll := s.scroll ++ [cam] }
    let r2 := appendLoop rest s1
    (r2.1, .scrollAppend cam :: r2.2)

/-- `list_cameras()`: `cmds.ls(type="camera")`, clear the scroll list,
map each shape to its first transform parent, append each. -/
def list_cameras (s : State) : HR :=
  let shapeNames := s.scene.camShapes.map (fun c => c.name)
  let s1 := { s with scroll := [], selection := [] }
  let cp := collectParents s1.scene shapeNames
  match cp.2 with
  | .error e => ⟨s1, .lsCameras :: .scrollRemoveAll :: cp.1, .error e⟩
  | .ok cams =>
    let ap := appendLoop cams s1
    ⟨ap.1, .lsCameras :: .scrollRemoveAll :: (cp.1 ++ ap.2), .ok ()⟩

/-- `create_camera`: `cmds.camera()` then `list_cameras()`; no `try`
block, so a failure propagates to the caller. -/
def create_camera (h : Host) (_inp : DialogInput) (s : State) : HR :=
  (pCamera h s).andThen (fun _ s1 => list_cameras s1)

/-- `delete_camera`: query the selection; if non-empty, confirm, and on
"Yes" delete and refresh, catching `RuntimeError` into an error dialog. -/
def delete_camera (h : Host) (inp : DialogInput) (s : State) : HR :=
  match s.selection with
  | [] => ⟨s, [.scrollQuerySelect], .ok ()⟩
  | sel0 :: _ =>
    let msg := "Are you sure you want to delete camera: " ++ sel0 ++ "?"
    let tr1 := [Event.scrollQuerySelect, Event.confirmDialog "Delete Camera?" msg]
    if inp.confirmAnswer = "Yes" then
      HRv.withTr tr1
        (((pDelete h sel0 s).andThen (fun _ s1 => list_cameras s1)).catchRuntime errDialog)
    else ⟨s, tr1, .ok ()⟩

/-- `rename_camera`: query the selection; prompt for a name; pre-validate
with `cmds.objExists`; then rename and refresh, catching `RuntimeError`
into an error dialog. -/
def rename_camera (h : Host) (inp : DialogInput) (s : State) : HR :=
  match s.selection with
  | [] => ⟨s, [.scrollQuerySelect], .ok ()⟩
  | sel0 :: _ =>
    let tr1 := [Event.scrollQuerySelect, Event.promptDialogEv]
    if inp.promptResult = "OK" then
      let newName := inp.promptText
      let tr2 := tr1 ++ [Event.objExistsQ newName]
      if s.scene.objExists newName then
        ⟨s, tr2 ++ [.confirmDialog "Error"
            ("A camera named \x27" ++ newName ++ "\x27 already exists.")], .ok ()⟩
      else
        HRv.withTr tr2
          (((pRename h sel0 newName s).andThen (fun _ s1 => list_cameras s1)).catchRuntime
            errDialog)
    else ⟨s, tr1, .ok ()⟩

/-- The attribute names the `for attr ... for axis ...` double loop of
`toggle_lock_camera` runs through, in loop order. -/
def toggleAttrs : List String :=
  (["translate", "rotate", "scale"].map (fun a => ["X", "Y", "Z"].map (fun ax => a ++ ax))).flatten

/-- The body of the double loop: set the lock flag of each attribute in
turn, aborting at the first failure (the exception leaves the loop). -/
def setLockLoop (h : Host) (cam : String) (b : Bool) : List String → State → HR
  | [], s => ⟨s, [], .ok ()⟩
  | a :: rest, s =>
    (pSetLock h cam a b s).andThen (fun _ s1 => setLockLoop h cam b rest s1)

/-- `toggle_lock_camera`: warn and return when nothing is selected; read
the `translateX` lock flag, set all nine transform attributes to its
negation, show an in-view message; any exception becomes an error
dialog. -/
def toggle_lock_camera (h : Host) (_inp : DialogInput) (s : State) : HR :=
  match s.selection with
  | [] => ⟨s, [.scrollQuerySelect, .warning "No camera selected."], .ok ()⟩
  | cam :: _ =>
    HRv.withTr [.scrollQuerySelect]
      (((pGetLock h cam "translateX" s).andThen (fun locked s1 =>
          (setLockLoop h cam (!locked) toggleAttrs s1).andThen (fun _ s2 =>
            let stateStr := if !locked then "locked" else "unlocked"
            pInView ("Camera <hl>" ++ cam ++ "</hl> transforms " ++ stateStr) s2))).catchAll
        errDialog)

/-- `export_cameras`: warn and return when nothing is selected; ask for a
file path (returning when the dialog is cancelled); select the chosen
cameras and export them; any exception becomes an error dialog. -/
def export_cameras (h : Host) (inp : DialogInput) (s : State) : HR :=
  match s.selection with
  | [] => ⟨s, [.scrollQuerySelect, .warning "No cameras selected to export."], .ok ()⟩
  | sel0 :: selRest =>
    let selected := sel0 :: selRest
    match inp.filePaths with
    | none => ⟨s, [.scrollQuerySelect, .fileDialogEv], .ok ()⟩
    | some [] => ⟨s, [.scrollQuerySelect, .fileDialogEv], .ok ()⟩
    | some (p :: _) =>
      HRv.withTr [.scrollQuerySelect, .fileDialogEv]
        (((pSelect h selected s).andThen (fun _ s1 =>
            (pExportFile h p s1).andThen (fun _ s2 =>
              pInView ("Exported cameras: <hl>" ++ String.intercalate ", " selected ++ "</hl>")
                s2))).catchAll errDialog)

/-- `import_cameras`: ask for a file path (returning when the dialog is
cancelled); import the file, refresh the list, show an in-view message;
any exception becomes an error dialog. -/
def import_cameras (h : Host) (inp : DialogInput) (s : State) : HR :=
  match inp.filePaths with
  | none => ⟨s, [.fileDialogEv], .ok ()⟩
  | some [] => ⟨s, [.fileDialogEv], .ok ()⟩
  | some (p :: _) =>
    HRv.withTr [.fileDialogEv]
      (((pImportFile h p s).andThen (fun _ s1 =>
          (list_cameras s1).andThen (fun _ s2 =>
            pInView ("Imported cameras from <hl>" ++ p ++ "</hl>") s2))).catchAll errDialog)

/-- The `for cam_shape in all_cams:` loop of `set_renderable_camera`:
each reset to 0 sits in its own `try ... except Exception: pass`, so a
failure is silently discarded and the loop continues. -/
def resetRenderLoop (h : Host) : List String → State → State × List Event
  | [], s => (s, [])
  | x :: rest, s =>
    let r := pSetRenderable h x 0 s
    let r2 := resetRenderLoop h rest r.st
    (r2.1, r.tr ++ r2.2)

/-- `set_renderable_camera`: warn and return when nothing is selected;
reset `renderable` on every camera shape (failures silently passed);
then set the selected camera's first shape renderable, any exception in
that part becoming an error dialog. -/
def set_renderable_camera (h : Host) (_inp : DialogInput) (s : State) : HR :=
  match s.selection with
  | [] => ⟨s, [.scrollQuerySelect, .warning "No camera selected."], .ok ()⟩
  | cam :: _ =>
    let allCams := s.scene.camShapes.map (fun c => c.name)
    let rl := resetRenderLoop h allCams s
    HRv.withTr ([.scrollQuerySelect, .lsCameras] ++ rl.2)
      (((pFirstCamShape cam rl.1).andThen (fun camShape s2 =>
          (pSetRenderable h camShape 1 s2).andThen (fun _ s3 =>
            pInView ("<hl>" ++ cam ++ "</hl> is now the renderable camera") s3))).catchAll
        errDialog)

/-- `duplicate_camera`: warn and return when nothing is selected;
duplicate the camera, rename the copy with a `_copy#` pattern, refresh
the list, show an in-view message; any exception becomes an error
dialog. -/
def duplicate_camera (h : Host) (_inp : DialogInput) (s : State) : HR :=
  match s.selection with
  | [] => ⟨s, [.scrollQuerySelect, .warning "No camera selected."], .ok ()⟩
  | cam :: _ =>
    HRv.withTr [.scrollQuerySelect]
      (((pDuplicate h cam s).andThen (fun newCam s1 =>
          (pRename h newCam (cam ++ "_copy#") s1).andThen (fun newName s2 =>
            (list_cameras s2).andThen (fun _ s3 =>
              pInView ("Duplicated camera <hl>" ++ cam ++ "</hl> as <hl>" ++ newName ++ "</hl>")
                s3)))).catchAll errDialog)

/-- `show_camera_info`: warn and return when nothing is selected; read
the camera shape's attributes and display them in an information dialog;
any exception becomes an error dialog. -/
def show_camera_info (h : Host) (_inp : DialogInput) (s : State) : HR :=
  match s.selection with
  | [] => ⟨s, [.scrollQuerySelect, .warning "No camera selected."], .ok ()⟩
  | cam :: _ =>
    HRv.withTr [.scrollQuerySelect]
      (((pFirstCamShape cam s).andThen (fun camShape s1 =>
          (pGetAttrNum h (camShape ++ ".focalLength") s1).andThen (fun focal s2 =>
            (pGetAttrNum h (camShape ++ ".nearClipPlane") s2).andThen (fun nearC s3 =>
              (pGetAttrNum h (camShape ++ ".farClipPlane") s3).andThen (fun farC s4 =>
                (pGetAttrNum h (camShape ++ ".renderable") s4).andThen (fun rdr s5 =>
                  (pGetAttrNum h (camShape ++ ".horizontalFilmAperture") s5).andThen
                    (fun hAp s6 =>
                      (pGetAttrNum h (camShape ++ ".verticalFilmAperture") s6).andThen
                        (fun vAp s7 =>
                          let msg := "Camera: " ++ cam ++ "\n" ++
                            "Focal Length: " ++ toString focal ++ " mm\n" ++
                            "Near Clip: " ++ toString nearC ++ "\n" ++
                            "Far Clip: " ++ toString farC ++ "\n" ++
                            "Renderable: " ++ (if rdr ≠ 0 then "Yes" else "No") ++ "\n" ++
                            "Film Aperture: " ++ toString hAp ++ " x " ++ toString vAp
                          ⟨s7, [.confirmDialog "Camera Info" msg], .ok ()⟩)))))))).catchAll
        errDialog)

/-! ### The UI (`cam_manager_ui`, `add_camera_popup_menu`) -/

/-- The handlers a widget can be wired to. -/
inductive HandlerId where
  | create
  | delete
  | rename
  | toggleLock
  | exportCams
  | importCams
  | setRenderable
  | duplicate
  | showInfo
deriving DecidableEq, Repr

/-- A UI widget created by `cam_manager_ui` / `add_camera_popup_menu`,
in creation order. -/
inductive Widget where
  | window (title : String)
  | frame (label : String)
  | image (path : String)
  | scrollList (name : String) (allowMulti : Bool)
  | button (label : String) (cmd : HandlerId)
  | menuItem (label : String) (cmd : HandlerId)
  | separator
  | uiText (label : String)
deriving DecidableEq, Repr

/-- Which embedded function each `HandlerId` dispatches to (the
`command=` argument of the corresponding widget). -/
def dispatch : HandlerId → Host → DialogInput → State → HR
  | .create => create_camera
  | .delete => delete_camera
  | .rename => rename_camera
  | .toggleLock => toggle_lock_camera
  | .exportCams => export_cameras
  | .importCams => import_cameras
  | .setRenderable => set_renderable_camera
  | .duplicate => duplicate_camera
  | .showInfo => show_camera_info

/-- `add_camera_popup_menu`: the right-click menu items attached to the
camera list, in creation order. -/
def add_camera_popup_menu : List Widget :=
  [.menuItem "Set as Renderable" .setRenderable,
   .menuItem "Duplicate Camera" .duplicate,
   .menuItem "Show Camera Info" .showInfo]

/-- The widgets `cam_manager_ui` creates, in creation order. -/
def cam_manager_widgets (imgPath : String) : List Widget :=
  [.window "Camera Manager",
   .frame "Camera Manager",
   .image (imgPath ++ "/main_camera_image.jpeg"),
   .frame "Cameras",
   .scrollList "cameraList" true] ++
  add_camera_popup_menu ++
  [.frame "Camera Operations",
   .button "Create New Camera" .create,
   .button "Delete Camera" .delete,
   .button "Rename Camera" .rename,
   .button "Lock/Unlock Camera Transforms" .toggleLock,
   .button "Export Selected Cameras" .exportCams,
   .button "Import Cameras" .importCams,
   .separator,
   .uiText "Select a camera and use the right-click menu for more options."]

/-- `cam_manager_ui`: build the window's widgets, show it, and populate
the camera list with `list_cameras()`. -/
def cam_manager_ui (s : State) : List Widget × HR :=
  (cam_manager_widgets s.moduleImg, list_cameras s)

/-! ### Concrete fixtures used to exercise the embedding -/

/-- A host on which every command succeeds, with fixed results for the
creating commands. -/
def noFail : Host where
  cameraFail := none
  newCamera := ⟨"camera1Shape", "camera1", 0⟩
  deleteFail := fun _ => none
  renameFail := fun _ _ => none
  renameResolve := fun _ n => n
  getLockFail := fun _ _ => none
  setLockFail := fun _ _ => none
  setRenderableFail := fun _ => none
  duplicateFail := fun _ => none
  duplicateResult := fun n => ⟨n ++ "1Shape", n ++ "1", 0⟩
  selectFail := none
  exportFail := none
  importFail := none
  importedCams := []
  getAttrValFail := fun _ => none
  attrVal := fun _ => 35

/-- A two-camera scene; `cam1.translateX` is locked, every other
attribute unlocked (so `cam1`'s nine transform locks are mixed). -/
def scene0 : Scene where
  camShapes := [⟨"cam1Shape", "cam1", 1⟩, ⟨"cam2Shape", "cam2", 0⟩]
  nodes := ["persp", "top"]
  lockOf := fun n a => n == "cam1" && a == "translateX"
  activeSel := []

/-- State with `cam1` selected in the camera list. -/
def st0 : State where
  scene := scene0
  scroll := ["cam1", "cam2"]
  selection := ["cam1"]
  moduleImg := "/tools/camMgr/img"

/-- Same state with nothing selected. -/
def stNoSel : State := { st0 with selection := [] }

/-- Dialog responses answering "Yes"/"OK" everywhere with a file path
picked. -/
def inp0 : DialogInput where
  confirmAnswer := "Yes"
  promptResult := "OK"
  promptText := "camNew"
  filePaths := some ["/tmp/cams.ma"]

/-- A host that fails exactly the `renderable` reset on `cam2Shape`. -/
def hostSilent : Host :=
  { noFail with
    setRenderableFail := fun sh =>
      if sh == "cam2Shape" then
        some ⟨.runtimeError, "setAttr: the attribute cam2Shape.renderable is locked"⟩
      else none }

/-- A host on which deleting `cam1` fails with a non-`RuntimeError`
exception (which `except RuntimeError` does not catch). -/
def hostTypeErr : Host :=
  { noFail with
    deleteFail := fun n =>
      if n == "cam1" then some ⟨.typeError, "delete failed with a TypeError"⟩ else none }

/-! ### Trace predicates -/

/-- Number of host commands in the trace that mutate host state. -/
def mutCount (tr : List Event) : Nat :=
  (tr.filter (fun e => e.isSceneMutating)).length

/-- The trace reaches a mutating host command and, strictly after the
first one, clears the scroll list (the start of a `list_cameras`
refresh). -/
def refreshAfterMut (tr : List Event) : Prop :=
  Event.scrollRemoveAll ∈ (tr.dropWhile (fun e => !e.isSceneMutating)).tail

/-- No modal dialog at all was shown. -/
def noDialogs (tr : List Event) : Prop :=
  ∀ t m, Event.confirmDialog t m ∉ tr

/-- The handler finished normally, its state, trace and outcome all
untouched apart from non-mutating events. -/
def leavesUntouched (r : HR) (s : State) : Prop :=
  r.st = s ∧ (∀ e ∈ r.tr, e.isSceneMutating = false) ∧ r.res = .ok ()

/-- The events a `list_cameras` refresh can produce: the listing query,
the scroll-list clear, the parent lookups and the appends. -/
def benign : Event → Bool
  | .lsCameras => true
  | .scrollRemoveAll => true
  | .listRelativesParent _ => true
  | .scrollAppend _ => true
  | _ => false

/-- Closed form of what `set_renderable_camera`'s reset loop does to one
camera shape: shapes whose name is in the processed list and whose
`setAttr` the host accepts get `renderable := 0`, the rest are left
alone. -/
def resetShape (h : Host) (names : List String) (c : CamShape) : CamShape :=
  if names.contains c.name && (h.setRenderableFail c.name).isNone then
    { c with renderable := 0 }
  else c

/-! ## Helper lemmas -/

theorem HRv.andThen_ok {α β : Type} (r : HRv α) (k : α → State → HRv β) (a : α)
    (h : r.res = .ok a) :
    r.andThen k = ⟨(k a r.st).st, r.tr ++ (k a r.st).tr, (k a r.st).res⟩ := by
  rcases r with ⟨s, tr, res⟩
  cases h
  rfl

theorem HRv.andThen_error {α β : Type} (r : HRv α) (k : α → State → HRv β) (e : Err)
    (h : r.res = .error e) :
    r.andThen k = ⟨r.st, r.tr, .error e⟩ := by
  rcases r with ⟨s, tr, res⟩
  cases h
  rfl

theorem HRv.catchAll_ok (r : HR) (k : Err → State → HR) (h : r.res = .ok ()) :
    r.catchAll k = r := by
  unfold HRv.catchAll
  rw [h]

theorem HRv.catchAll_error (r : HR) (k : Err → State → HR) (e : Err)
    (h : r.res = .error e) :
    r.catchAll k = ⟨(k e r.st).st, r.tr ++ (k e r.st).tr, (k e r.st).res⟩ := by
  unfold HRv.catchAll
  rw [h]

theorem HRv.catchRuntime_ok (r : HR) (k : Err → State → HR) (h : r.res = .ok ()) :
    r.catchRuntime k = r := by
  unfold HRv.catchRuntime
  rw [h]

theorem HRv.catchRuntime_rte (r : HR) (k : Err → State → HR) (e : Err)
    (h : r.res = .error e) (hk : e.kind = .runtimeError) :
    r.catchRuntime k = ⟨(k e r.st).st, r.tr ++ (k e r.st).tr, (k e r.st).res⟩ := by
  unfold HRv.catchRuntime
  rw [h]
  simp only [hk, if_pos]

theorem HRv.catchRuntime_other (r : HR) (k : Err → State → HR) (e : Err)
    (h : r.res = .error e) (hk : e.kind ≠ .runtimeError) :
    r.catchRuntime k = r := by
  unfold HRv.catchRuntime
  rw [h]
  simp only [if_neg hk]

theorem refreshAfterMut_build (pre : List Event) (m : Event) (post : List Event)
    (hpre : ∀ e ∈ pre, e.isSceneMutating = false)
    (hm : m.isSceneMutating = true)
    (hpost : Event.scrollRemoveAll ∈ post) :
    refreshAfterMut (pre ++ m :: post) := by
  induction pre with
  | nil =>
    unfold refreshAfterMut
    simp only [List.nil_append, List.dropWhile_cons, hm]
    simpa using hpost
  | cons a rest ih =>
    unfold refreshAfterMut at ih ⊢
    have ha : a.isSceneMutating = false := hpre a (List.mem_cons_self _ _)
    simp only [List.cons_append, List.dropWhile_cons, ha]
    simpa using ih (fun e he => hpre e (List.mem_cons_of_mem _ he))

theorem mutCount_append (a b : List Event) :
    mutCount (a ++ b) = mutCount a + mutCount b := by
  simp [mutCount, List.filter_append]

theorem mutCount_eq_zero (tr : List Event)
    (h : ∀ e ∈ tr, e.isSceneMutating = false) : mutCount tr = 0 := by
  simp only [mutCount, List.length_eq_zero]
  rw [List.filter_eq_nil_iff]
  intro e he
  simp [h e he]

theorem benign_not_mutating (e : Event) (hb : benign e = true) :
    e.isSceneMutating = false := by
  cases e <;> first | rfl | exact absurd hb (by simp [benign])

theorem benign_not_dialog (e : Event) (hb : benign e = true) (t m : String) :
    e ≠ Event.confirmDialog t m := by
  cases e <;> simp_all [benign]

theorem collectParents_benign (sc : Scene) (names : List String) :
    ∀ e ∈ (collectParents sc names).1, benign e = true := by
  induction names with
  | nil => intro e he; simp [collectParents] at he
  | cons c rest ih =>
    intro e he
    cases hf : (sc.camShapes.find? (fun k => k.name == c)).map (fun k => k.parent) with
    | none =>
      simp only [collectParents, hf] at he
      simp at he; subst he; rfl
    | some p =>
      simp only [collectParents, hf] at he
      rcases List.mem_cons.mp he with rfl | h2
      · rfl
      · exact ih e h2

theorem appendLoop_benign (names : List String) :
    ∀ s : State, ∀ e ∈ (appendLoop names s).2, benign e = true := by
  induction names with
  | nil => intro s e he; simp [appendLoop] at he
  | cons c rest ih =>
    intro s e he
    simp only [appendLoop] at he
    rcases List.mem_cons.mp he with rfl | h2
    · rfl
    · exact ih _ e h2

theorem list_cameras_benign (s : State) :
    ∀ e ∈ (list_cameras s).tr, benign e = true := by
  intro e he
  simp only [list_cameras] at he
  cases hc : (collectParents s.scene (s.scene.camShapes.map (fun c => c.name))).2 with
  | error err =>
    rw [hc] at he
    rcases List.mem_cons.mp he with rfl | he2
    · rfl
    rcases List.mem_cons.mp he2 with rfl | he3
    · rfl
    exact collectParents_benign _ _ e he3
  | ok cams =>
    rw [hc] at he
    rcases List.mem_cons.mp he with rfl | he2
    · rfl
    rcases List.mem_cons.mp he2 with rfl | he3
    · rfl
    rcases List.mem_append.mp he3 with he4 | he4
    · exact collectParents_benign _ _ e he4
    · exact appendLoop_benign _ _ e he4

theorem list_cameras_scrollRemoveAll (s : State) :
    Event.scrollRemoveAll ∈ (list_cameras s).tr := by
  simp only [list_cameras]
  cases hc : (collectParents s.scene (s.scene.camShapes.map (fun c => c.name))).2 <;>
    exact List.mem_cons_of_mem _ (List.mem_cons_self _ _)

theorem find?_name_self (l : List CamShape) :
    (l.map CamShape.name).Nodup →
    ∀ c ∈ l, l.find? (fun k => k.name == c.name) = some c := by
  induction l with
  | nil => intro _ c hc; simp at hc
  | cons a t ih =>
    intro hnd c hc
    rw [List.map_cons, List.nodup_cons] at hnd
    rcases List.mem_cons.mp hc with rfl | hct
    · simp [List.find?]
    · have hna : (a.name == c.name) = false := by
        simp only [beq_eq_false_iff_ne, ne_eq]
        intro heq
        exact hnd.1 (heq ▸ List.mem_map_of_mem _ hct)
      simp only [List.find?, hna]
      exact ih hnd.2 c hct

theorem collectParents_nodup (sc : Scene)
    (hnd : (sc.camShapes.map CamShape.name).Nodup) :
    ∀ sub : List CamShape, (∀ c ∈ sub, c ∈ sc.camShapes) →
      collectParents sc (sub.map (fun c => c.name)) =
        (sub.map (fun c => Event.listRelativesParent c.name),
         .ok (sub.map (fun c => c.parent))) := by
  intro sub
  induction sub with
  | nil => intro _; rfl
  | cons c rest ih =>
    intro hsub
    have hc : c ∈ sc.camShapes := hsub c (List.mem_cons_self _ _)
    have hfind : sc.camShapes.find? (fun k => k.name == c.name) = some c :=
      find?_name_self _ hnd c hc
    have ihr := ih (fun x hx => hsub x (List.mem_cons_of_mem _ hx))
    simp only [List.map_cons, collectParents, hfind, Option.map_some', ihr]
    rfl

theorem appendLoop_spec (names : List String) :
    ∀ s : State, appendLoop names s =
      ({ s with scroll := s.scroll ++ names }, names.map Event.scrollAppend) := by
  induction names with
  | nil => intro s; simp [appendLoop]
  | cons c rest ih =>
    intro s
    simp only [appendLoop, ih]
    simp

theorem list_cameras_run (s : State)
    (hnd : (s.scene.camShapes.map CamShape.name).Nodup) :
    list_cameras s =
      ⟨{ s with scroll := s.scene.camShapes.map (fun c => c.parent), selection := [] },
       .lsCameras :: .scrollRemoveAll ::
         (s.scene.camShapes.map (fun c => Event.listRelativesParent c.name) ++
          s.scene.camShapes.map (fun c => Event.scrollAppend c.parent)),
       .ok ()⟩ := by
  have hcp := collectParents_nodup s.scene hnd s.scene.camShapes (fun _ hx => hx)
  simp only [list_cameras, hcp, appendLoop_spec]
  simp [List.map_map, Function.comp]

theorem list_cameras_mutCount (s : State) : mutCount (list_cameras s).tr = 0 :=
  mutCount_eq_zero _ (fun e he => benign_not_mutating e (list_cameras_benign s e he))

theorem list_cameras_res (s : State) : (list_cameras s).res = .ok () := by
  have key : ∀ sub : List CamShape, (∀ c ∈ sub, c ∈ s.scene.camShapes) →
      ∃ ps, (collectParents s.scene (sub.map (fun c => c.name))).2 = .ok ps := by
    intro sub
    induction sub with
    | nil => intro _; exact ⟨[], rfl⟩
    | cons c rest ih =>
      intro hsub
      have hc : c ∈ s.scene.camShapes := hsub c (List.mem_cons_self _ _)
      have hfind : ∃ k, s.scene.camShapes.find? (fun k => k.name == c.name) = some k := by
        rcases hk : s.scene.camShapes.find? (fun k => k.name == c.name) with _ | k
        · have := List.find?_eq_none.mp hk c hc
          simp at this
        · exact ⟨k, hk⟩
      rcases hfind with ⟨k, hk⟩
      rcases ih (fun x hx => hsub x (List.mem_cons_of_mem _ hx)) with ⟨ps, hps⟩
      refine ⟨k.parent :: ps, ?_⟩
      simp only [List.map_cons, collectParents, hk, Option.map_some', hps]
      rfl
  rcases key s.scene.camShapes (fun _ hx => hx) with ⟨ps, hps⟩
  simp only [list_cameras, hps]

theorem setLockLoop_ok (h : Host) (cam : String) (b : Bool) (attrs : List String)
    (hok : ∀ a ∈ attrs, h.setLockFail cam a = none) :
    ∀ s : State, (setLockLoop h cam b attrs s).res = .ok () := by
  induction attrs with
  | nil => intro s; rfl
  | cons x rest ih =>
    intro s
    have hx : h.setLockFail cam x = none := hok x (List.mem_cons_self _ _)
    simp only [setLockLoop, pSetLock, hx, HRv.andThen]
    exact ih (fun a ha => hok a (List.mem_cons_of_mem _ ha)) _

theorem setLockLoop_tr (h : Host) (cam : String) (b : Bool) (attrs : List String)
    (hok : ∀ a ∈ attrs, h.setLockFail cam a = none) :
    ∀ s : State, (setLockLoop h cam b attrs s).tr =
      attrs.map (fun a => Event.cmdSetAttrLock cam a b) := by
  induction attrs with
  | nil => intro s; rfl
  | cons x rest ih =>
    intro s
    have hx : h.setLockFail cam x = none := hok x (List.mem_cons_self _ _)
    simp only [setLockLoop, pSetLock, hx, HRv.andThen, List.map_cons]
    rw [ih (fun a ha => hok a (List.mem_cons_of_mem _ ha))]
    rfl

theorem setLockLoop_frame (h : Host) (cam : String) (b : Bool) (attrs : List String) :
    ∀ s : State,
      (setLockLoop h cam b attrs s).st.scroll = s.scroll ∧
      (setLockLoop h cam b attrs s).st.selection = s.selection ∧
      (setLockLoop h cam b attrs s).st.moduleImg = s.moduleImg ∧
      (setLockLoop h cam b attrs s).st.scene.camShapes = s.scene.camShapes ∧
      (setLockLoop h cam b attrs s).st.scene.nodes = s.scene.nodes ∧
      (setLockLoop h cam b attrs s).st.scene.activeSel = s.scene.activeSel := by
  induction attrs with
  | nil => intro s; exact ⟨rfl, rfl, rfl, rfl, rfl, rfl⟩
  | cons x rest ih =>
    intro s
    cases hx : h.setLockFail cam x with
    | some e => simp [setLockLoop, pSetLock, hx, HRv.andThen]
    | none => simp only [setLockLoop, pSetLock, hx, HRv.andThen]; exact ih _

theorem setLockLoop_lock_other (h : Host) (cam : String) (b : Bool) (attrs : List String) :
    ∀ s : State, ∀ n a', (n ≠ cam ∨ a' ∉ attrs) →
      (setLockLoop h cam b attrs s).st.scene.lockOf n a' = s.scene.lockOf n a' := by
  induction attrs with
  | nil => intro s n a' _; rfl
  | cons x rest ih =>
    intro s n a' hcond
    have hrest : n ≠ cam ∨ a' ∉ rest := by
      rcases hcond with hn | ha
      · exact Or.inl hn
      · exact Or.inr (fun hm => ha (List.mem_cons_of_mem _ hm))
    cases hx : h.setLockFail cam x with
    | some e =>
      simp only [setLockLoop, pSetLock, hx, HRv.andThen]
    | none =>
      simp only [setLockLoop, pSetLock, hx, HRv.andThen]
      rw [ih _ n a' hrest]
      have hne : (n == cam && a' == x) = false := by
        rcases hcond with hn | ha
        · simp [hn]
        · have : a' ≠ x := fun hax => ha (hax ▸ List.mem_cons_self _ _)
          simp [this]
      simp [hne]

theorem setLockLoop_lock_mem (h : Host) (cam : String) (b : Bool) (attrs : List String)
    (hok : ∀ a ∈ attrs, h.setLockFail cam a = none) :
    ∀ s : State, ∀ a ∈ attrs,
      (setLockLoop h cam b attrs s).st.scene.lockOf cam a = b := by
  induction attrs with
  | nil => intro s a ha; simp at ha
  | cons x rest ih =>
    intro s a ha
    have hx : h.setLockFail cam x = none := hok x (List.mem_cons_self _ _)
    simp only [setLockLoop, pSetLock, hx, HRv.andThen]
    by_cases har : a ∈ rest
    · exact ih (fun a' ha' => hok a' (List.mem_cons_of_mem _ ha')) _ a har
    · have hax : a = x := by
        rcases List.mem_cons.mp ha with h1 | h1
        · exact h1
        · exact absurd h1 har
      subst hax
      rw [setLockLoop_lock_other h cam b rest _ cam a (Or.inr har)]
      simp

theorem resetShape_name (h : Host) (names : List String) (c : CamShape) :
    (resetShape h names c).name = c.name := by
  unfold resetShape
  split <;> rfl

theorem resetShape_parent (h : Host) (names : List String) (c : CamShape) :
    (resetShape h names c).parent = c.parent := by
  unfold resetShape
  split <;> rfl

theorem resetShape_skip (h : Host) (x : String) (rest : List String) (c : CamShape)
    (e : Err) (hx : h.setRenderableFail x = some e) :
    resetShape h (x :: rest) c = resetShape h rest c := by
  unfold resetShape
  by_cases hcx : c.name = x
  · rw [hcx, hx]
    simp
  · have hb : (c.name == x) = false := by simpa using hcx
    rw [List.contains_cons, hb]
    simp

theorem resetShape_step (h : Host) (x : String) (rest : List String) (c : CamShape)
    (hx : h.setRenderableFail x = none) :
    resetShape h rest (if c.name == x then { c with renderable := 0 } else c) =
      resetShape h (x :: rest) c := by
  by_cases hcx : c.name = x
  · have hb : (c.name == x) = true := by simpa using hcx
    rw [if_pos hb]
    unfold resetShape
    rw [List.contains_cons, hb]
    have hfc : h.setRenderableFail c.name = none := by rw [hcx]; exact hx
    simp only [hfc, Option.isNone_none, Bool.and_true, Bool.true_or]
    split <;> rfl
  · have hb : (c.name == x) = false := by simpa using hcx
    rw [if_neg (by simp [hb])]
    unfold resetShape
    rw [List.contains_cons, hb]
    simp

theorem resetRenderLoop_state (h : Host) (names : List String) :
    ∀ s : State, (resetRenderLoop h names s).1 =
      { s with scene := { s.scene with
          camShapes := s.scene.camShapes.map (resetShape h names) } } := by
  induction names with
  | nil =>
    intro s
    have hid : s.scene.camShapes.map (resetShape h []) = s.scene.camShapes := by
      have hc : ∀ c, resetShape h [] c = c := by
        intro c; simp [resetShape]
      calc s.scene.camShapes.map (resetShape h [])
          = s.scene.camShapes.map (fun c => c) := List.map_congr_left (fun c _ => hc c)
        _ = s.scene.camShapes := List.map_id' _
    simp only [resetRenderLoop, hid]
  | cons x rest ih =>
    intro s
    cases hx : h.setRenderableFail x with
    | some e =>
      simp only [resetRenderLoop, pSetRenderable, hx, ih]
      have hrw : s.scene.camShapes.map (resetShape h rest) =
          s.scene.camShapes.map (resetShape h (x :: rest)) :=
        List.map_congr_left (fun c _ => (resetShape_skip h x rest c e hx).symm)
      rw [hrw]
    | none =>
      simp only [resetRenderLoop, pSetRenderable, hx, ih]
      rw [List.map_map]
      have hrw : s.scene.camShapes.map
          ((resetShape h rest) ∘
            (fun c => if c.name == x then { c with renderable := 0 } else c)) =
          s.scene.camShapes.map (resetShape h (x :: rest)) :=
        List.map_congr_left (fun c _ => resetShape_step h x rest c hx)
      rw [hrw]

theorem resetRenderLoop_tr (h : Host) (names : List String) :
    ∀ s : State, (resetRenderLoop h names s).2 =
      (names.map (fun x =>
        match h.setRenderableFail x with
        | some e => [Event.cmdSetAttrRenderable x 0, Event.cmdFailed e.msg]
        | none => [Event.cmdSetAttrRenderable x 0])).flatten := by
  induction names with
  | nil => intro s; rfl
  | cons x rest ih =>
    intro s
    cases hx : h.setRenderableFail x with
    | some e => simp only [resetRenderLoop, pSetRenderable, hx, ih, List.map_cons,
        List.flatten_cons]
    | none => simp only [resetRenderLoop, pSetRenderable, hx, ih, List.map_cons,
        List.flatten_cons]

theorem resetRenderLoop_mutCount (h : Host) (names : List String) :
    ∀ s : State, mutCount (resetRenderLoop h names s).2 = names.length := by
  induction names with
  | nil => intro s; rfl
  | cons x rest ih =>
    intro s
    cases hx : h.setRenderableFail x with
    | some e =>
      simp only [resetRenderLoop, pSetRenderable, hx]
      rw [mutCount_append, ih]
      have h1 : mutCount [Event.cmdSetAttrRenderable x 0, Event.cmdFailed e.msg] = 1 := rfl
      rw [h1, List.length_cons]
      omega
    | none =>
      simp only [resetRenderLoop, pSetRenderable, hx]
      rw [mutCount_append, ih]
      have h1 : mutCount [Event.cmdSetAttrRenderable x 0] = 1 := rfl
      rw [h1, List.length_cons]
      omega

theorem resetRenderLoop_noDialog (h : Host) (names : List String) :
    ∀ s : State, ∀ t m, Event.confirmDialog t m ∉ (resetRenderLoop h names s).2 := by
  induction names with
  | nil => intro s t m hmem; simp [resetRenderLoop] at hmem
  | cons x rest ih =>
    intro s t m hmem
    cases hx : h.setRenderableFail x with
    | some e =>
      simp only [resetRenderLoop, pSetRenderable, hx] at hmem
      rcases List.mem_append.mp hmem with h1 | h1
      · rcases List.mem_cons.mp h1 with h2 | h2
        · exact Event.noConfusion h2
        rcases List.mem_cons.mp h2 with h3 | h3
        · exact Event.noConfusion h3
        · simp at h3
      · exact ih _ t m h1
    | none =>
      simp only [resetRenderLoop, pSetRenderable, hx] at hmem
      rcases List.mem_append.mp hmem with h1 | h1
      · rcases List.mem_cons.mp h1 with h2 | h2
        · exact Event.noConfusion h2
        · simp at h2
      · exact ih _ t m h1

theorem resetRenderLoop_cmdFailed (h : Host) (names : List String) (x : String) (e : Err)
    (hx : x ∈ names) (hf : h.setRenderableFail x = some e) :
    ∀ s : State, Event.cmdFailed e.msg ∈ (resetRenderLoop h names s).2 := by
  induction names with
  | nil => simp at hx
  | cons y rest ih =>
    intro s
    rcases List.mem_cons.mp hx with rfl | hxr
    · simp only [resetRenderLoop, pSetRenderable, hf]
      exact List.mem_append_left _ (List.mem_cons_of_mem _ (List.mem_cons_self _ _))
    · cases hy : h.setRenderableFail y with
      | some ey =>
        simp only [resetRenderLoop, pSetRenderable, hy]
        exact List.mem_append_right _ (ih hxr _)
      | none =>
        simp only [resetRenderLoop, pSetRenderable, hy]
        exact List.mem_append_right _ (ih hxr _)

/-! ### Run lemmas: each handler's result under given host conditions -/

theorem create_camera_run_ok (h : Host) (inp : DialogInput) (s : State)
    (hcf : h.cameraFail = none) :
    create_camera h inp s =
      ⟨(list_cameras (pCamera h s).st).st,
       .cmdCamera :: (list_cameras (pCamera h s).st).tr,
       (list_cameras (pCamera h s).st).res⟩ := by
  unfold create_camera
  rw [HRv.andThen_ok (pCamera h s) _ () (by simp [pCamera, hcf])]
  have htr : (pCamera h s).tr = [.cmdCamera] := by simp [pCamera, hcf]
  rw [htr]
  rfl

theorem create_camera_run_err (h : Host) (inp : DialogInput) (s : State) (e : Err)
    (hcf : h.cameraFail = some e) :
    create_camera h inp s = ⟨s, [.cmdCamera, .cmdFailed e.msg], .error e⟩ := by
  unfold create_camera
  rw [HRv.andThen_error (pCamera h s) _ e (by simp [pCamera, hcf])]
  simp [pCamera, hcf]

theorem delete_camera_run_ok (h : Host) (inp : DialogInput) (s : State) (c : String)
    (cs : List String) (hsel : s.selection = c :: cs) (hyes : inp.confirmAnswer = "Yes")
    (hdf : h.deleteFail c = none) :
    delete_camera h inp s =
      ⟨(list_cameras (pDelete h c s).st).st,
       [.scrollQuerySelect,
        .confirmDialog "Delete Camera?"
          ("Are you sure you want to delete camera: " ++ c ++ "?"),
        .cmdDelete c] ++ (list_cameras (pDelete h c s).st).tr,
       .ok ()⟩ := by
  simp only [delete_camera, hsel]
  rw [if_pos hyes]
  rw [HRv.andThen_ok (pDelete h c s) _ () (by simp [pDelete, hdf])]
  rw [list_cameras_res]
  rw [HRv.catchRuntime_ok _ _ rfl]
  have htr : (pDelete h c s).tr = [.cmdDelete c] := by simp [pDelete, hdf]
  rw [HRv.withTr, htr]
  have hres := list_cameras_res (pDelete h c s).st
  simp [hres]

theorem delete_camera_run_fail (h : Host) (inp : DialogInput) (s : State) (c : String)
    (cs : List String) (e : Err) (hsel : s.selection = c :: cs)
    (hyes : inp.confirmAnswer = "Yes") (hdf : h.deleteFail c = some e)
    (hkind : e.kind = .runtimeError) :
    delete_camera h inp s =
      ⟨s,
       [.scrollQuerySelect,
        .confirmDialog "Delete Camera?"
          ("Are you sure you want to delete camera: " ++ c ++ "?"),
        .cmdDelete c, .cmdFailed e.msg, .confirmDialog "Error" e.msg],
       .ok ()⟩ := by
  simp only [delete_camera, hsel]
  rw [if_pos hyes]
  rw [HRv.andThen_error (pDelete h c s) _ e (by simp [pDelete, hdf])]
  rw [HRv.catchRuntime_rte _ _ e rfl hkind]
  have htr : (pDelete h c s).tr = [.cmdDelete c, .cmdFailed e.msg] := by simp [pDelete, hdf]
  have hst : (pDelete h c s).st = s := by simp [pDelete, hdf]
  rw [HRv.withTr, htr, hst]
  simp [errDialog]

theorem rename_camera_run_ok (h : Host) (inp : DialogInput) (s : State) (c : String)
    (cs : List String) (hsel : s.selection = c :: cs) (hok : inp.promptResult = "OK")
    (hex : s.scene.objExists inp.promptText = false)
    (hrf : h.renameFail c inp.promptText = none) :
    rename_camera h inp s =
      ⟨(list_cameras (pRename h c inp.promptText s).st).st,
       [.scrollQuerySelect, .promptDialogEv, .objExistsQ inp.promptText,
        .cmdRename c inp.promptText] ++ (list_cameras (pRename h c inp.promptText s).st).tr,
       .ok ()⟩ := by
  simp only [rename_camera, hsel]
  rw [if_pos hok, if_neg (by simp [hex])]
  rw [HRv.andThen_ok (pRename h c inp.promptText s) _ (h.renameResolve c inp.promptText)
    (by simp [pRename, hrf])]
  rw [list_cameras_res]
  rw [HRv.catchRuntime_ok _ _ rfl]
  have htr : (pRename h c inp.promptText s).tr = [.cmdRename c inp.promptText] := by
    simp [pRename, hrf]
  rw [HRv.withTr, htr]
  have hres := list_cameras_res (pRename h c inp.promptText s).st
  simp [hres]

theorem rename_camera_run_fail (h : Host) (inp : DialogInput) (s : State) (c : String)
    (cs : List String) (e : Err) (hsel : s.selection = c :: cs)
    (hok : inp.promptResult = "OK") (hex : s.scene.objExists inp.promptText = false)
    (hrf : h.renameFail c inp.promptText = some e) (hkind : e.kind = .runtimeError) :
    rename_camera h inp s =
      ⟨s,
       [.scrollQuerySelect, .promptDialogEv, .objExistsQ inp.promptText,
        .cmdRename c inp.promptText, .cmdFailed e.msg, .confirmDialog "Error" e.msg],
       .ok ()⟩ := by
  simp only [rename_camera, hsel]
  rw [if_pos hok, if_neg (by simp [hex])]
  rw [HRv.andThen_error (pRename h c inp.promptText s) _ e (by simp [pRename, hrf])]
  rw [HRv.catchRuntime_rte _ _ e rfl hkind]
  have htr : (pRename h c inp.promptText s).tr =
      [.cmdRename c inp.promptText, .cmdFailed e.msg] := by simp [pRename, hrf]
  have hst : (pRename h c inp.promptText s).st = s := by simp [pRename, hrf]
  rw [HRv.withTr, htr, hst]
  simp [errDialog]

theorem delete_camera_run_escape (h : Host) (inp : DialogInput) (s : State) (c : String)
    (cs : List String) (e : Err) (hsel : s.selection = c :: cs)
    (hyes : inp.confirmAnswer = "Yes") (hdf : h.deleteFail c = some e)
    (hkind : e.kind ≠ .runtimeError) :
    delete_camera h inp s =
      ⟨s,
       [.scrollQuerySelect,
        .confirmDialog "Delete Camera?"
          ("Are you sure you want to delete camera: " ++ c ++ "?"),
        .cmdDelete c, .cmdFailed e.msg],
       .error e⟩ := by
  simp only [delete_camera, hsel]
  rw [if_pos hyes]
  rw [HRv.andThen_error (pDelete h c s) _ e (by simp [pDelete, hdf])]
  rw [HRv.catchRuntime_other _ _ e rfl hkind]
  have htr : (pDelete h c s).tr = [.cmdDelete c, .cmdFailed e.msg] := by simp [pDelete, hdf]
  have hst : (pDelete h c s).st = s := by simp [pDelete, hdf]
  rw [HRv.withTr, htr, hst]
  simp

theorem rename_camera_run_escape (h : Host) (inp : DialogInput) (s : State) (c : String)
    (cs : List String) (e : Err) (hsel : s.selection = c :: cs)
    (hok : inp.promptResult = "OK") (hex : s.scene.objExists inp.promptText = false)
    (hrf : h.renameFail c inp.promptText = some e) (hkind : e.kind ≠ .runtimeError) :
    rename_camera h inp s =
      ⟨s,
       [.scrollQuerySelect, .promptDialogEv, .objExistsQ inp.promptText,
        .cmdRename c inp.promptText, .cmdFailed e.msg],
       .error e⟩ := by
  simp only [rename_camera, hsel]
  rw [if_pos hok, if_neg (by simp [hex])]
  rw [HRv.andThen_error (pRename h c inp.promptText s) _ e (by simp [pRename, hrf])]
  rw [HRv.catchRuntime_other _ _ e rfl hkind]
  have htr : (pRename h c inp.promptText s).tr =
      [.cmdRename c inp.promptText, .cmdFailed e.msg] := by simp [pRename, hrf]
  have hst : (pRename h c inp.promptText s).st = s := by simp [pRename, hrf]
  rw [HRv.withTr, htr, hst]
  simp

theorem toggle_lock_run (h : Host) (inp : DialogInput) (s : State) (cam : String)
    (selRest : List String) (hsel : s.selection = cam :: selRest)
    (hget : h.getLockFail cam "translateX" = none)
    (hset : ∀ a, h.setLockFail cam a = none) :
    toggle_lock_camera h inp s =
      ⟨(setLockLoop h cam (!s.scene.lockOf cam "translateX") toggleAttrs s).st,
       [.scrollQuerySelect, .getAttrLock cam "translateX"] ++
         (setLockLoop h cam (!s.scene.lockOf cam "translateX") toggleAttrs s).tr ++
         [.inView ("Camera <hl>" ++ cam ++ "</hl> transforms " ++
           (if !s.scene.lockOf cam "translateX" then "locked" else "unlocked"))],
       .ok ()⟩ := by
  have hloopok := setLockLoop_ok h cam (!s.scene.lockOf cam "translateX") toggleAttrs
    (fun a _ => hset a) s
  simp only [toggle_lock_camera, hsel, pGetLock, hget]
  rcases hV : setLockLoop h cam (!s.scene.lockOf cam "translateX") toggleAttrs s with
    ⟨st1, tr1, res1⟩
  rw [hV] at hloopok
  have hres1 : res1 = .ok () := hloopok
  subst hres1
  simp [HRv.andThen, HRv.catchAll, HRv.withTr, pInView, hV]

theorem toggle_lock_run_getfail (h : Host) (inp : DialogInput) (s : State) (cam : String)
    (selRest : List String) (e : Err) (hsel : s.selection = cam :: selRest)
    (hget : h.getLockFail cam "translateX" = some e) :
    toggle_lock_camera h inp s =
      ⟨s, [.scrollQuerySelect, .getAttrLock cam "translateX", .cmdFailed e.msg,
           .confirmDialog "Error" e.msg], .ok ()⟩ := by
  simp only [toggle_lock_camera, hsel, pGetLock, hget]
  simp only [HRv.andThen]
  rw [HRv.catchAll_error _ _ e rfl]
  rw [HRv.withTr]
  simp [errDialog]

theorem export_cameras_run_ok (h : Host) (inp : DialogInput) (s : State) (c : String)
    (cs : List String) (p : String) (ps : List String)
    (hsel : s.selection = c :: cs) (hfp : inp.filePaths = some (p :: ps))
    (hsf : h.selectFail = none) (hef : h.exportFail = none) :
    export_cameras h inp s =
      ⟨{ s with scene := { s.scene with activeSel := c :: cs } },
       [.scrollQuerySelect, .fileDialogEv, .cmdSelect (c :: cs), .cmdExportFile p,
        .inView ("Exported cameras: <hl>" ++ String.intercalate ", " (c :: cs) ++ "</hl>")],
       .ok ()⟩ := by
  simp [export_cameras, hsel, hfp, pSelect, hsf, pExportFile, hef, pInView,
    HRv.andThen, HRv.catchAll, HRv.withTr]

theorem export_cameras_run_selfail (h : Host) (inp : DialogInput) (s : State) (c : String)
    (cs : List String) (p : String) (ps : List String) (e : Err)
    (hsel : s.selection = c :: cs) (hfp : inp.filePaths = some (p :: ps))
    (hsf : h.selectFail = some e) :
    export_cameras h inp s =
      ⟨s, [.scrollQuerySelect, .fileDialogEv, .cmdSelect (c :: cs), .cmdFailed e.msg,
           .confirmDialog "Error" e.msg], .ok ()⟩ := by
  simp only [export_cameras, hsel, hfp, pSelect, hsf]
  simp only [HRv.andThen]
  rw [HRv.catchAll_error _ _ e rfl]
  rw [HRv.withTr]
  simp [errDialog]

theorem import_cameras_run_ok (h : Host) (inp : DialogInput) (s : State)
    (p : String) (ps : List String)
    (hfp : inp.filePaths = some (p :: ps)) (hif : h.importFail = none) :
    import_cameras h inp s =
      ⟨(list_cameras (pImportFile h p s).st).st,
       [.fileDialogEv, .cmdImportFile p] ++ (list_cameras (pImportFile h p s).st).tr ++
         [.inView ("Imported cameras from <hl>" ++ p ++ "</hl>")],
       .ok ()⟩ := by
  simp only [import_cameras, hfp]
  rw [HRv.andThen_ok (pImportFile h p s) _ () (by simp [pImportFile, hif])]
  rw [HRv.andThen_ok (list_cameras (pImportFile h p s).st) _ () (list_cameras_res _)]
  rw [HRv.catchAll_ok _ _ rfl]
  have htr : (pImportFile h p s).tr = [.cmdImportFile p] := by simp [pImportFile, hif]
  rw [HRv.withTr, htr]
  simp [pInView]

theorem import_cameras_run_fail (h : Host) (inp : DialogInput) (s : State)
    (p : String) (ps : List String) (e : Err)
    (hfp : inp.filePaths = some (p :: ps)) (hif : h.importFail = some e) :
    import_cameras h inp s =
      ⟨s, [.fileDialogEv, .cmdImportFile p, .cmdFailed e.msg, .confirmDialog "Error" e.msg],
       .ok ()⟩ := by
  simp only [import_cameras, hfp]
  rw [HRv.andThen_error (pImportFile h p s) _ e (by simp [pImportFile, hif])]
  have htr : (pImportFile h p s).tr = [.cmdImportFile p, .cmdFailed e.msg] := by
    simp [pImportFile, hif]
  have hst : (pImportFile h p s).st = s := by simp [pImportFile, hif]
  rw [HRv.catchAll_error _ _ e rfl]
  rw [HRv.withTr, htr, hst]
  simp [errDialog]

theorem duplicate_camera_run_ok (h : Host) (inp : DialogInput) (s : State) (cam : String)
    (selRest : List String) (hsel : s.selection = cam :: selRest)
    (hdup : h.duplicateFail cam = none)
    (hren : h.renameFail (h.duplicateResult cam).parent (cam ++ "_copy#") = none) :
    duplicate_camera h inp s =
      ⟨(list_cameras (pRename h (h.duplicateResult cam).parent (cam ++ "_copy#")
          (pDuplicate h cam s).st).st).st,
       [.scrollQuerySelect, .cmdDuplicate cam,
        .cmdRename (h.duplicateResult cam).parent (cam ++ "_copy#")] ++
         (list_cameras (pRename h (h.duplicateResult cam).parent (cam ++ "_copy#")
           (pDuplicate h cam s).st).st).tr ++
         [.inView ("Duplicated camera <hl>" ++ cam ++ "</hl> as <hl>" ++
           h.renameResolve (h.duplicateResult cam).parent (cam ++ "_copy#") ++ "</hl>")],
       .ok ()⟩ := by
  simp only [duplicate_camera, hsel]
  rw [HRv.andThen_ok (pDuplicate h cam s) _ (h.duplicateResult cam).parent
    (by simp [pDuplicate, hdup])]
  rw [HRv.andThen_ok (pRename h (h.duplicateResult cam).parent (cam ++ "_copy#")
    (pDuplicate h cam s).st) _ (h.renameResolve (h.duplicateResult cam).parent (cam ++ "_copy#"))
    (by simp [pRename, hren])]
  rw [HRv.andThen_ok (list_cameras _) _ () (list_cameras_res _)]
  rw [HRv.catchAll_ok _ _ rfl]
  have htr1 : (pDuplicate h cam s).tr = [.cmdDuplicate cam] := by simp [pDuplicate, hdup]
  have htr2 : (pRename h (h.duplicateResult cam).parent (cam ++ "_copy#")
      (pDuplicate h cam s).st).tr = [.cmdRename (h.duplicateResult cam).parent (cam ++ "_copy#")] := by
    simp [pRename, hren]
  rw [HRv.withTr, htr1, htr2]
  simp [pInView]

theorem duplicate_camera_run_dupfail (h : Host) (inp : DialogInput) (s : State) (cam : String)
    (selRest : List String) (e : Err) (hsel : s.selection = cam :: selRest)
    (hdup : h.duplicateFail cam = some e) :
    duplicate_camera h inp s =
      ⟨s, [.scrollQuerySelect, .cmdDuplicate cam, .cmdFailed e.msg,
           .confirmDialog "Error" e.msg], .ok ()⟩ := by
  simp only [duplicate_camera, hsel]
  rw [HRv.andThen_error (pDuplicate h cam s) _ e (by simp [pDuplicate, hdup])]
  have htr : (pDuplicate h cam s).tr = [.cmdDuplicate cam, .cmdFailed e.msg] := by
    simp [pDuplicate, hdup]
  have hst : (pDuplicate h cam s).st = s := by simp [pDuplicate, hdup]
  rw [HRv.catchAll_error _ _ e rfl]
  rw [HRv.withTr, htr, hst]
  simp [errDialog]

theorem any_map_resetShape (h : Host) (names : List String) (l : List CamShape) (n : String) :
    (l.map (resetShape h names)).any (fun c => c.name == n || c.parent == n) =
      l.any (fun c => c.name == n || c.parent == n) := by
  induction l with
  | nil => rfl
  | cons c t ih =>
    simp only [List.map_cons, List.any_cons, ih, resetShape_name, resetShape_parent]

theorem objExists_map_resetShape (h : Host) (names : List String) (sc : Scene) (n : String) :
    Scene.objExists { sc with camShapes := sc.camShapes.map (resetShape h names) } n =
      sc.objExists n := by
  unfold Scene.objExists
  simp only [any_map_resetShape]

theorem filter_parent_map_resetShape (h : Host) (names : List String) (l : List CamShape)
    (cam : String) :
    ((l.map (resetShape h names)).filter (fun c => c.parent == cam)).map (fun c => c.name) =
      (l.filter (fun c => c.parent == cam)).map (fun c => c.name) := by
  induction l with
  | nil => rfl
  | cons c t ih =>
    cases hp : c.parent == cam with
    | true =>
      simp only [List.map_cons, List.filter_cons, resetShape_parent, hp, if_pos,
        resetShape_name, ih]
    | false =>
      simp only [List.map_cons, List.filter_cons, resetShape_parent, hp, ih]
      simp [ih]

theorem pFirstCamShape_run (s : State) (cam sh : String) (shRest : List String)
    (hObj : s.scene.objExists cam = true)
    (hShapes : (s.scene.camShapes.filter (fun c => c.parent == cam)).map (fun c => c.name)
      = sh :: shRest) :
    pFirstCamShape cam s = ⟨s, [.listRelativesShapes cam], .ok sh⟩ := by
  unfold pFirstCamShape
  rw [if_pos hObj, hShapes]

theorem pFirstCamShape_run_noshape (s : State) (cam : String)
    (hObj : s.scene.objExists cam = true)
    (hShapes : s.scene.camShapes.filter (fun c => c.parent == cam) = []) :
    pFirstCamShape cam s = ⟨s, [.listRelativesShapes cam],
      .error ⟨.typeError, "\x27NoneType\x27 object is not subscriptable"⟩⟩ := by
  unfold pFirstCamShape
  rw [if_pos hObj, hShapes]
  rfl

theorem set_renderable_run_ok (h : Host) (inp : DialogInput) (s : State) (cam sh : String)
    (selRest : List String) (shRest : List String)
    (hsel : s.selection = cam :: selRest)
    (hObj : s.scene.objExists cam = true)
    (hShapes : (s.scene.camShapes.filter (fun c => c.parent == cam)).map (fun c => c.name)
      = sh :: shRest)
    (hshOk : h.setRenderableFail sh = none) :
    (set_renderable_camera h inp s).st.scene.camShapes =
      List.map (fun c => if c.name == sh then { c with renderable := 1 } else c)
        (List.map (resetShape h (List.map (fun c => c.name) s.scene.camShapes))
          s.scene.camShapes) ∧
    (set_renderable_camera h inp s).tr =
      [.scrollQuerySelect, .lsCameras] ++
        (resetRenderLoop h (s.scene.camShapes.map (fun c => c.name)) s).2 ++
        [.listRelativesShapes cam, .cmdSetAttrRenderable sh 1,
         .inView ("<hl>" ++ cam ++ "</hl> is now the renderable camera")] ∧
    (set_renderable_camera h inp s).res = .ok () := by
  simp only [set_renderable_camera, hsel]
  have hmid := resetRenderLoop_state h (s.scene.camShapes.map (fun c => c.name)) s
  rw [hmid]
  have hObj2 : Scene.objExists { s.scene with camShapes := s.scene.camShapes.map (resetShape h (s.scene.camShapes.map (fun c => c.name))) } cam = true := by
    rw [objExists_map_resetShape]
    exact hObj
  have hShapes2 : (({ s.scene with camShapes := s.scene.camShapes.map (resetShape h (s.scene.camShapes.map (fun c => c.name))) } : Scene).camShapes.filter (fun c => c.parent == cam)).map (fun c => c.name) = sh :: shRest := by
    show ((s.scene.camShapes.map _).filter _).map _ = _
    rw [filter_parent_map_resetShape]
    exact hShapes
  rw [pFirstCamShape_run _ cam sh shRest hObj2 hShapes2]
  simp [HRv.andThen, HRv.catchAll, HRv.withTr, pSetRenderable, hshOk, pInView]

theorem show_camera_info_run_noshape (h : Host) (inp : DialogInput) (s : State)
    (cam : String) (selRest : List String)
    (hsel : s.selection = cam :: selRest)
    (hObj : s.scene.objExists cam = true)
    (hShapes : s.scene.camShapes.filter (fun c => c.parent == cam) = []) :
    show_camera_info h inp s =
      ⟨s, [.scrollQuerySelect, .listRelativesShapes cam,
           .confirmDialog "Error" "\x27NoneType\x27 object is not subscriptable"],
       .ok ()⟩ := by
  simp only [show_camera_info, hsel]
  rw [pFirstCamShape_run_noshape s cam hObj hShapes]
  simp [HRv.andThen, HRv.catchAll, HRv.withTr, errDialog]

/-! ## Claim theorems -/

/-- C4: the tool offers every operation from the UI: buttons for create,
delete, rename, lock, export and import wired to the corresponding
handlers, a right-click menu with set-renderable, duplicate and camera
info, the always-shown camera list widget, and `cam_manager_ui` finishes
by populating the list with a host camera listing. -/
theorem C4_ui_operations :
    (∀ s : State,
      Widget.scrollList "cameraList" true ∈ (cam_manager_ui s).1 ∧
      Widget.button "Create New Camera" .create ∈ (cam_manager_ui s).1 ∧
      Widget.button "Delete Camera" .delete ∈ (cam_manager_ui s).1 ∧
      Widget.button "Rename Camera" .rename ∈ (cam_manager_ui s).1 ∧
      Widget.button "Lock/Unlock Camera Transforms" .toggleLock ∈ (cam_manager_ui s).1 ∧
      Widget.button "Export Selected Cameras" .exportCams ∈ (cam_manager_ui s).1 ∧
      Widget.button "Import Cameras" .importCams ∈ (cam_manager_ui s).1 ∧
      Widget.menuItem "Set as Renderable" .setRenderable ∈ (cam_manager_ui s).1 ∧
      Widget.menuItem "Duplicate Camera" .duplicate ∈ (cam_manager_ui s).1 ∧
      Widget.menuItem "Show Camera Info" .showInfo ∈ (cam_manager_ui s).1 ∧
      Event.lsCameras ∈ ((cam_manager_ui s).2).tr) ∧
    dispatch .create = create_camera ∧
    dispatch .delete = delete_camera ∧
    dispatch .rename = rename_camera ∧
    dispatch .toggleLock = toggle_lock_camera ∧
    dispatch .exportCams = export_cameras ∧
    dispatch .importCams = import_cameras ∧
    dispatch .setRenderable = set_renderable_camera ∧
    dispatch .duplicate = duplicate_camera ∧
    dispatch .showInfo = show_camera_info := by
  refine ⟨fun s => ⟨?_, ?_, ?_, ?_, ?_, ?_, ?_, ?_, ?_, ?_, ?_⟩,
    rfl, rfl, rfl, rfl, rfl, rfl, rfl, rfl, rfl⟩
  rotate_right
  · show Event.lsCameras ∈ (list_cameras s).tr
    simp only [list_cameras]
    cases hc : (collectParents s.scene (s.scene.camShapes.map (fun c => c.name))).2 <;>
      exact List.mem_cons_self _ _
  all_goals
    simp [cam_manager_ui, cam_manager_widgets, add_camera_popup_menu]

/-- C5: `list_cameras` empties the scroll list and then appends, for each
camera shape in the order the host listing returns them, the first
transform parent of that shape — one entry per shape (stated for scenes
whose shape names are pairwise distinct, which Maya guarantees for `ls`
results). -/
theorem C5_list_cameras_spec (s : State)
    (hnd : (s.scene.camShapes.map CamShape.name).Nodup) :
    (list_cameras s).res = .ok () ∧
    (list_cameras s).st.scroll = s.scene.camShapes.map (fun c => c.parent) ∧
    (list_cameras s).tr =
      .lsCameras :: .scrollRemoveAll ::
        (s.scene.camShapes.map (fun c => Event.listRelativesParent c.name) ++
         s.scene.camShapes.map (fun c => Event.scrollAppend c.parent)) := by
  rw [list_cameras_run s hnd]
  exact ⟨rfl, rfl, rfl⟩

/-- Witness for C5 at the concrete two-camera state `st0`. -/
theorem C5_witness :
    (st0.scene.camShapes.map CamShape.name).Nodup ∧
    (list_cameras st0).st.scroll = ["cam1", "cam2"] := by
  refine ⟨by decide, ?_⟩
  rw [(C5_list_cameras_spec st0 (by decide)).2.1]
  rfl

/-- C8: with nothing selected in the camera list, every
selection-dependent handler returns at once: state untouched, no
mutating host command issued, no exception. -/
theorem C8_empty_selection (h : Host) (inp : DialogInput) (s : State)
    (hsel : s.selection = []) :
    leavesUntouched (delete_camera h inp s) s ∧
    leavesUntouched (rename_camera h inp s) s ∧
    leavesUntouched (toggle_lock_camera h inp s) s ∧
    leavesUntouched (export_cameras h inp s) s ∧
    leavesUntouched (set_renderable_camera h inp s) s ∧
    leavesUntouched (duplicate_camera h inp s) s ∧
    leavesUntouched (show_camera_info h inp s) s := by
  refine ⟨?_, ?_, ?_, ?_, ?_, ?_, ?_⟩ <;>
    simp [delete_camera, rename_camera, toggle_lock_camera, export_cameras,
      set_renderable_camera, duplicate_camera, show_camera_info, hsel,
      leavesUntouched, Event.isSceneMutating]

/-- Witness for C8 at the concrete no-selection state `stNoSel`. -/
theorem C8_witness :
    stNoSel.selection = [] ∧ leavesUntouched (delete_camera noFail inp0 stNoSel) stNoSel :=
  ⟨rfl, (C8_empty_selection noFail inp0 stNoSel rfl).1⟩

/-- C1: counterexample — `toggle_lock_camera` (one of the handlers the
claim covers) succeeds all of its mutating host commands on `st0`, yet
its trace contains no camera-list refresh at all (no listing, no
scroll-list clear, no append). -/
theorem C1_counterexample :
    (toggle_lock_camera noFail inp0 st0).res.isOk = true ∧
    Event.cmdSetAttrLock "cam1" "translateX" false ∈ (toggle_lock_camera noFail inp0 st0).tr ∧
    ((toggle_lock_camera noFail inp0 st0).tr.filter
      (fun e => match e with
        | .lsCameras => true
        | .scrollRemoveAll => true
        | .scrollAppend _ => true
        | _ => false)) = [] := by
  decide

/-- C2: counterexample — on `hostSilent`, the reset of
`cam2Shape.renderable` inside `set_renderable_camera` fails with an
exception, yet the handler shows no dialog whatsoever and finishes
normally: the failure is silently suppressed, not forwarded to a modal
dialog. -/
theorem C2_counterexample :
    Event.cmdFailed "setAttr: the attribute cam2Shape.renderable is locked"
        ∈ (set_renderable_camera hostSilent inp0 st0).tr ∧
    ((set_renderable_camera hostSilent inp0 st0).tr.filter
      (fun e => match e with | .confirmDialog _ _ => true | _ => false)) = [] ∧
    (set_renderable_camera hostSilent inp0 st0).res.isOk = true := by
  decide

/-- C3: counterexample — a single successful invocation of
`toggle_lock_camera` issues nine mutating host commands (one `setAttr`
per transform attribute), not exactly one. -/
theorem C3_counterexample :
    (toggle_lock_camera noFail inp0 st0).res.isOk = true ∧
    mutCount (toggle_lock_camera noFail inp0 st0).tr = 9 := by
  decide

/-- C10: counterexample — on `st0` the nine locks of `cam1` are mixed
(`translateX` locked, `rotateY` not); two successive successful calls of
`toggle_lock_camera` leave `rotateY` locked, so the second call does not
restore the original state. -/
theorem C10_counterexample :
    st0.scene.lockOf "cam1" "translateX" = true ∧
    st0.scene.lockOf "cam1" "rotateY" = false ∧
    (toggle_lock_camera noFail inp0 st0).res.isOk = true ∧
    (toggle_lock_camera noFail inp0 (toggle_lock_camera noFail inp0 st0).st).res.isOk = true ∧
    (toggle_lock_camera noFail inp0
      (toggle_lock_camera noFail inp0 st0).st).st.scene.lockOf "cam1" "rotateY" = true := by
  decide

/-- C1 (amended): for `create_camera`, `delete_camera`, `rename_camera`,
`import_cameras` and `duplicate_camera`, after the mutating host command
succeeds the handler refreshes the camera list (a `list_cameras`
scroll-clear appears in the trace strictly after the first mutating
command); `toggle_lock_camera`, `export_cameras` and
`set_renderable_camera` are excluded, as `C1_counterexample` shows. -/
theorem C1_refresh_after_mutation (h : Host) (inp : DialogInput) (s : State) :
    (h.cameraFail = none → refreshAfterMut (create_camera h inp s).tr) ∧
    (∀ c cs, s.selection = c :: cs → inp.confirmAnswer = "Yes" → h.deleteFail c = none →
      refreshAfterMut (delete_camera h inp s).tr) ∧
    (∀ c cs, s.selection = c :: cs → inp.promptResult = "OK" →
      s.scene.objExists inp.promptText = false → h.renameFail c inp.promptText = none →
      refreshAfterMut (rename_camera h inp s).tr) ∧
    (∀ p ps, inp.filePaths = some (p :: ps) → h.importFail = none →
      refreshAfterMut (import_cameras h inp s).tr) ∧
    (∀ c cs, s.selection = c :: cs → h.duplicateFail c = none →
      h.renameFail (h.duplicateResult c).parent (c ++ "_copy#") = none →
      refreshAfterMut (duplicate_camera h inp s).tr) := by
  refine ⟨?_, ?_, ?_, ?_, ?_⟩
  · intro hcf
    rw [create_camera_run_ok h inp s hcf]
    exact refreshAfterMut_build [] .cmdCamera _ (by intro e he; cases he) rfl
      (list_cameras_scrollRemoveAll _)
  · intro c cs hsel hyes hdf
    rw [delete_camera_run_ok h inp s c cs hsel hyes hdf]
    refine refreshAfterMut_build
      [.scrollQuerySelect,
       .confirmDialog "Delete Camera?" ("Are you sure you want to delete camera: " ++ c ++ "?")]
      (.cmdDelete c) _ ?_ rfl (list_cameras_scrollRemoveAll _)
    intro e he
    rcases List.mem_cons.mp he with rfl | he2
    · rfl
    rcases List.mem_cons.mp he2 with rfl | he3
    · rfl
    cases he3
  · intro c cs hsel hok hex hrf
    rw [rename_camera_run_ok h inp s c cs hsel hok hex hrf]
    refine refreshAfterMut_build
      [.scrollQuerySelect, .promptDialogEv, .objExistsQ inp.promptText]
      (.cmdRename c inp.promptText) _ ?_ rfl (list_cameras_scrollRemoveAll _)
    intro e he
    rcases List.mem_cons.mp he with rfl | he2
    · rfl
    rcases List.mem_cons.mp he2 with rfl | he3
    · rfl
    rcases List.mem_cons.mp he3 with rfl | he4
    · rfl
    cases he4
  · intro p ps hfp hif
    rw [import_cameras_run_ok h inp s p ps hfp hif]
    refine refreshAfterMut_build [.fileDialogEv] (.cmdImportFile p)
      ((list_cameras (pImportFile h p s).st).tr ++
        [.inView ("Imported cameras from <hl>" ++ p ++ "</hl>")]) ?_ rfl ?_
    · intro e he
      rcases List.mem_cons.mp he with rfl | he2
      · rfl
      cases he2
    · exact List.mem_append_left _ (list_cameras_scrollRemoveAll _)
  · intro c cs hsel hdup hren
    rw [duplicate_camera_run_ok h inp s c cs hsel hdup hren]
    refine refreshAfterMut_build [.scrollQuerySelect] (.cmdDuplicate c)
      (.cmdRename (h.duplicateResult c).parent (c ++ "_copy#") ::
        ((list_cameras (pRename h (h.duplicateResult c).parent (c ++ "_copy#")
          (pDuplicate h c s).st).st).tr ++
         [.inView ("Duplicated camera <hl>" ++ c ++ "</hl> as <hl>" ++
           h.renameResolve (h.duplicateResult c).parent (c ++ "_copy#") ++ "</hl>")])) ?_ rfl ?_
    · intro e he
      rcases List.mem_cons.mp he with rfl | he2
      · rfl
      cases he2
    · exact List.mem_cons_of_mem _ (List.mem_append_left _ (list_cameras_scrollRemoveAll _))

/-- Witness for C1 at the concrete host `noFail` and state `st0`:
`create_camera` succeeds and its trace shows a refresh after the
mutation. -/
theorem C1_witness :
    noFail.cameraFail = none ∧ refreshAfterMut (create_camera noFail inp0 st0).tr :=
  ⟨rfl, (C1_refresh_after_mutation noFail inp0 st0).1 rfl⟩

/-- C2 (amended): host-command failures raised inside a handler's `try`
block are caught and their message is shown in a modal error dialog —
with these exceptions, which `C2_counterexample` and the code force:
`set_renderable_camera` silently suppresses failures of its reset loop
(no dialog at all when the final `setAttr` succeeds); `create_camera`
has no `try`, so its failures propagate to the caller; and
`delete_camera` and `rename_camera` catch only `RuntimeError`, so a
failure of any other kind escapes them with no dialog.
(`rename_camera` additionally pre-validates the new name via
`objExists`, and the empty-selection paths issue non-dialog warnings;
both are outside the `try` blocks.) -/
theorem C2_error_handling (h : Host) (inp : DialogInput) (s : State) :
    (∀ e, h.cameraFail = some e → (create_camera h inp s).res = .error e) ∧
    (∀ c cs e, s.selection = c :: cs → inp.confirmAnswer = "Yes" →
      h.deleteFail c = some e → e.kind = .runtimeError →
      Event.confirmDialog "Error" e.msg ∈ (delete_camera h inp s).tr ∧
      (delete_camera h inp s).res = .ok ()) ∧
    (∀ c cs e, s.selection = c :: cs → inp.promptResult = "OK" →
      s.scene.objExists inp.promptText = false →
      h.renameFail c inp.promptText = some e → e.kind = .runtimeError →
      Event.confirmDialog "Error" e.msg ∈ (rename_camera h inp s).tr ∧
      (rename_camera h inp s).res = .ok ()) ∧
    (∀ c cs e, s.selection = c :: cs → h.getLockFail c "translateX" = some e →
      Event.confirmDialog "Error" e.msg ∈ (toggle_lock_camera h inp s).tr ∧
      (toggle_lock_camera h inp s).res = .ok ()) ∧
    (∀ c cs p ps e, s.selection = c :: cs → inp.filePaths = some (p :: ps) →
      h.selectFail = some e →
      Event.confirmDialog "Error" e.msg ∈ (export_cameras h inp s).tr ∧
      (export_cameras h inp s).res = .ok ()) ∧
    (∀ p ps e, inp.filePaths = some (p :: ps) → h.importFail = some e →
      Event.confirmDialog "Error" e.msg ∈ (import_cameras h inp s).tr ∧
      (import_cameras h inp s).res = .ok ()) ∧
    (∀ c cs e, s.selection = c :: cs → h.duplicateFail c = some e →
      Event.confirmDialog "Error" e.msg ∈ (duplicate_camera h inp s).tr ∧
      (duplicate_camera h inp s).res = .ok ()) ∧
    (∀ c cs, s.selection = c :: cs → s.scene.objExists c = true →
      s.scene.camShapes.filter (fun k => k.parent == c) = [] →
      Event.confirmDialog "Error" "\x27NoneType\x27 object is not subscriptable"
        ∈ (show_camera_info h inp s).tr ∧
      (show_camera_info h inp s).res = .ok ()) ∧
    (∀ c cs sh shRest x e, s.selection = c :: cs →
      s.scene.objExists c = true →
      (s.scene.camShapes.filter (fun k => k.parent == c)).map (fun k => k.name)
        = sh :: shRest →
      h.setRenderableFail sh = none →
      x ∈ s.scene.camShapes.map (fun k => k.name) → h.setRenderableFail x = some e →
      Event.cmdFailed e.msg ∈ (set_renderable_camera h inp s).tr ∧
      noDialogs (set_renderable_camera h inp s).tr ∧
      (set_renderable_camera h inp s).res = .ok ()) ∧
    (∀ c cs e, s.selection = c :: cs → inp.confirmAnswer = "Yes" →
      h.deleteFail c = some e → e.kind ≠ .runtimeError →
      (delete_camera h inp s).res = .error e ∧
      (∀ m, Event.confirmDialog "Error" m ∉ (delete_camera h inp s).tr)) ∧
    (∀ c cs e, s.selection = c :: cs → inp.promptResult = "OK" →
      s.scene.objExists inp.promptText = false →
      h.renameFail c inp.promptText = some e → e.kind ≠ .runtimeError →
      (rename_camera h inp s).res = .error e ∧
      (∀ m, Event.confirmDialog "Error" m ∉ (rename_camera h inp s).tr)) := by
  refine ⟨?_, ?_, ?_, ?_, ?_, ?_, ?_, ?_, ?_, ?_, ?_⟩
  · intro e hcf
    rw [create_camera_run_err h inp s e hcf]
  · intro c cs e hsel hyes hdf hkind
    rw [delete_camera_run_fail h inp s c cs e hsel hyes hdf hkind]
    exact ⟨by simp, rfl⟩
  · intro c cs e hsel hok hex hrf hkind
    rw [rename_camera_run_fail h inp s c cs e hsel hok hex hrf hkind]
    exact ⟨by simp, rfl⟩
  · intro c cs e hsel hgf
    rw [toggle_lock_run_getfail h inp s c cs e hsel hgf]
    exact ⟨by simp, rfl⟩
  · intro c cs p ps e hsel hfp hsf
    rw [export_cameras_run_selfail h inp s c cs p ps e hsel hfp hsf]
    exact ⟨by simp, rfl⟩
  · intro p ps e hfp hif
    rw [import_cameras_run_fail h inp s p ps e hfp hif]
    exact ⟨by simp, rfl⟩
  · intro c cs e hsel hdup
    rw [duplicate_camera_run_dupfail h inp s c cs e hsel hdup]
    exact ⟨by simp, rfl⟩
  · intro c cs hsel hObj hsh
    rw [show_camera_info_run_noshape h inp s c cs hsel hObj hsh]
    exact ⟨by simp, rfl⟩
  · intro c cs sh shRest x e hsel hObj hsh hshOk hx hxf
    obtain ⟨hshapes, htr, hres⟩ :=
      set_renderable_run_ok h inp s c sh cs shRest hsel hObj hsh hshOk
    refine ⟨?_, ?_, hres⟩
    · rw [htr]
      refine List.mem_append_left _ (List.mem_append_right _ ?_)
      exact resetRenderLoop_cmdFailed h _ x e hx hxf s
    · intro t m hmem
      rw [htr] at hmem
      simp only [List.mem_append, List.mem_cons, List.not_mem_nil, or_false] at hmem
      rcases hmem with ((h1 | h1) | h1) | (h1 | h1 | h1) <;>
        first
          | exact Event.noConfusion h1
          | exact resetRenderLoop_noDialog h _ s t m h1
  · intro c cs e hsel hyes hdf hkind
    rw [delete_camera_run_escape h inp s c cs e hsel hyes hdf hkind]
    refine ⟨rfl, ?_⟩
    intro m hmem
    simp only [List.mem_cons, List.not_mem_nil, or_false] at hmem
    rcases hmem with h1 | h1 | h1 | h1 <;>
      first
        | exact Event.noConfusion h1
        | (injection h1 with h2 h3; exact absurd h2 (by decide))
  · intro c cs e hsel hok hex hrf hkind
    rw [rename_camera_run_escape h inp s c cs e hsel hok hex hrf hkind]
    refine ⟨rfl, ?_⟩
    intro m hmem
    simp only [List.mem_cons, List.not_mem_nil, or_false] at hmem
    rcases hmem with h1 | h1 | h1 | h1 | h1 <;> exact Event.noConfusion h1

/-- Witness for C2 at the concrete hosts `hostSilent` and `hostTypeErr`
and state `st0`: the reset of `cam2Shape.renderable` fails yet no dialog
appears and the handler finishes normally, and a non-`RuntimeError`
delete failure escapes `delete_camera` with no error dialog. -/
theorem C2_witness :
    hostSilent.setRenderableFail "cam2Shape" =
      some ⟨.runtimeError, "setAttr: the attribute cam2Shape.renderable is locked"⟩ ∧
    (Event.cmdFailed "setAttr: the attribute cam2Shape.renderable is locked"
      ∈ (set_renderable_camera hostSilent inp0 st0).tr ∧
     noDialogs (set_renderable_camera hostSilent inp0 st0).tr ∧
     (set_renderable_camera hostSilent inp0 st0).res = .ok ()) ∧
    hostTypeErr.deleteFail "cam1" = some ⟨.typeError, "delete failed with a TypeError"⟩ ∧
    (delete_camera hostTypeErr inp0 st0).res =
      .error ⟨.typeError, "delete failed with a TypeError"⟩ ∧
    (∀ m, Event.confirmDialog "Error" m ∉ (delete_camera hostTypeErr inp0 st0).tr) := by
  obtain ⟨h1, h2, h3⟩ := (C2_error_handling hostSilent inp0 st0).2.2.2.2.2.2.2.2.1 "cam1" []
    "cam1Shape" [] "cam2Shape"
    ⟨.runtimeError, "setAttr: the attribute cam2Shape.renderable is locked"⟩
    rfl (by decide) (by decide) (by decide) (by decide) (by decide)
  obtain ⟨h4, h5⟩ := (C2_error_handling hostTypeErr inp0 st0).2.2.2.2.2.2.2.2.2.1 "cam1" []
    ⟨.typeError, "delete failed with a TypeError"⟩ rfl rfl (by decide) (by decide)
  exact ⟨by decide, ⟨h1, h2, h3⟩, by decide, h4, h5⟩

theorem mutCount_map_setLock (cam : String) (b : Bool) (attrs : List String) :
    mutCount (attrs.map (fun a => Event.cmdSetAttrLock cam a b)) = attrs.length := by
  induction attrs with
  | nil => rfl
  | cons x rest ih =>
    simp only [List.map_cons]
    rw [show (Event.cmdSetAttrLock cam x b :: rest.map (fun a => Event.cmdSetAttrLock cam a b))
        = [Event.cmdSetAttrLock cam x b] ++ rest.map (fun a => Event.cmdSetAttrLock cam a b)
        from rfl,
      mutCount_append, ih]
    have h1 : mutCount [Event.cmdSetAttrLock cam x b] = 1 := rfl
    rw [h1, List.length_cons]
    omega

/-- C3 (amended): per successful invocation, `create_camera`,
`delete_camera`, `rename_camera` and `import_cameras` issue exactly one
mutating host command; `toggle_lock_camera` issues nine (`setAttr` per
transform attribute), `export_cameras` issues two (a select plus the file
export), `duplicate_camera` issues two (duplicate plus rename), and
`set_renderable_camera` issues one `setAttr` per camera shape of the
scene plus one — the one-command claim fails for the latter four, as
`C3_counterexample` shows. -/
theorem C3_command_counts (h : Host) (inp : DialogInput) (s : State) :
    mutCount (create_camera h inp s).tr = 1 ∧
    (∀ c cs, s.selection = c :: cs → inp.confirmAnswer = "Yes" → h.deleteFail c = none →
      mutCount (delete_camera h inp s).tr = 1) ∧
    (∀ c cs, s.selection = c :: cs → inp.promptResult = "OK" →
      s.scene.objExists inp.promptText = false → h.renameFail c inp.promptText = none →
      mutCount (rename_camera h inp s).tr = 1) ∧
    (∀ p ps, inp.filePaths = some (p :: ps) → h.importFail = none →
      mutCount (import_cameras h inp s).tr = 1) ∧
    (∀ c cs, s.selection = c :: cs → h.getLockFail c "translateX" = none →
      (∀ a, h.setLockFail c a = none) →
      mutCount (toggle_lock_camera h inp s).tr = 9) ∧
    (∀ c cs p ps, s.selection = c :: cs → inp.filePaths = some (p :: ps) →
      h.selectFail = none → h.exportFail = none →
      mutCount (export_cameras h inp s).tr = 2) ∧
    (∀ c cs, s.selection = c :: cs → h.duplicateFail c = none →
      h.renameFail (h.duplicateResult c).parent (c ++ "_copy#") = none →
      mutCount (duplicate_camera h inp s).tr = 2) ∧
    (∀ c cs sh shRest, s.selection = c :: cs → s.scene.objExists c = true →
      (s.scene.camShapes.filter (fun k => k.parent == c)).map (fun k => k.name)
        = sh :: shRest →
      h.setRenderableFail sh = none →
      mutCount (set_renderable_camera h inp s).tr = s.scene.camShapes.length + 1) := by
  refine ⟨?_, ?_, ?_, ?_, ?_, ?_, ?_, ?_⟩
  · cases hcf : h.cameraFail with
    | some e => rw [create_camera_run_err h inp s e hcf]; rfl
    | none =>
      rw [create_camera_run_ok h inp s hcf]
      rw [show (Event.cmdCamera :: (list_cameras (pCamera h s).st).tr)
          = [Event.cmdCamera] ++ (list_cameras (pCamera h s).st).tr from rfl,
        mutCount_append, list_cameras_mutCount]
      rfl
  · intro c cs hsel hyes hdf
    rw [delete_camera_run_ok h inp s c cs hsel hyes hdf]
    rw [mutCount_append, list_cameras_mutCount]
    rfl
  · intro c cs hsel hok hex hrf
    rw [rename_camera_run_ok h inp s c cs hsel hok hex hrf]
    rw [mutCount_append, list_cameras_mutCount]
    rfl
  · intro p ps hfp hif
    rw [import_cameras_run_ok h inp s p ps hfp hif]
    rw [mutCount_append, mutCount_append, list_cameras_mutCount]
    rfl
  · intro c cs hsel hget hset
    rw [toggle_lock_run h inp s c cs hsel hget hset]
    rw [mutCount_append, mutCount_append,
      setLockLoop_tr h c (!s.scene.lockOf c "translateX") toggleAttrs (fun a _ => hset a),
      mutCount_map_setLock]
    rfl
  · intro c cs p ps hsel hfp hsf hef
    rw [export_cameras_run_ok h inp s c cs p ps hsel hfp hsf hef]
    rfl
  · intro c cs hsel hdup hren
    rw [duplicate_camera_run_ok h inp s c cs hsel hdup hren]
    rw [mutCount_append, mutCount_append, list_cameras_mutCount]
    rfl
  · intro c cs sh shRest hsel hObj hsh hshOk
    obtain ⟨_, htr, _⟩ := set_renderable_run_ok h inp s c sh cs shRest hsel hObj hsh hshOk
    rw [htr]
    rw [mutCount_append, mutCount_append, resetRenderLoop_mutCount, List.length_map]
    have h1 : mutCount [Event.scrollQuerySelect, Event.lsCameras] = 0 := rfl
    have h2 : mutCount [Event.listRelativesShapes c, Event.cmdSetAttrRenderable sh 1,
      Event.inView ("<hl>" ++ c ++ "</hl> is now the renderable camera")] = 1 := rfl
    rw [h1, h2]
    omega

/-- Witness for C3 at the concrete host `noFail` and state `st0`:
`toggle_lock_camera` issues nine mutating commands and `create_camera`
one. -/
theorem C3_witness :
    mutCount (toggle_lock_camera noFail inp0 st0).tr = 9 ∧
    mutCount (create_camera noFail inp0 st0).tr = 1 :=
  ⟨(C3_command_counts noFail inp0 st0).2.2.2.2.1 "cam1" [] rfl rfl (fun _ => rfl),
   (C3_command_counts noFail inp0 st0).1⟩

/-! ### Module-state preservation lemmas -/

theorem andThen_img {α β : Type} (r : HRv α) (k : α → State → HRv β)
    (hk : ∀ a s2, (k a s2).st.moduleImg = s2.moduleImg) :
    (r.andThen k).st.moduleImg = r.st.moduleImg := by
  rcases r with ⟨st, tr, res⟩
  cases res with
  | ok a => exact hk a st
  | error e => rfl

theorem catchAll_img (r : HR) (k : Err → State → HR)
    (hk : ∀ e s2, (k e s2).st.moduleImg = s2.moduleImg) :
    (r.catchAll k).st.moduleImg = r.st.moduleImg := by
  unfold HRv.catchAll
  cases hres : r.res with
  | error e => exact hk e r.st
  | ok a => rfl

theorem catchRuntime_img (r : HR) (k : Err → State → HR)
    (hk : ∀ e s2, (k e s2).st.moduleImg = s2.moduleImg) :
    (r.catchRuntime k).st.moduleImg = r.st.moduleImg := by
  unfold HRv.catchRuntime
  cases hres : r.res with
  | error e =>
    by_cases hkind : e.kind = ErrKind.runtimeError
    · simp only [hkind, if_pos]
      exact hk e r.st
    · simp only [if_neg hkind]
  | ok a => rfl

theorem pCamera_img (h : Host) (s : State) : (pCamera h s).st.moduleImg = s.moduleImg := by
  unfold pCamera; cases h.cameraFail <;> rfl

theorem pDelete_img (h : Host) (n : String) (s : State) :
    (pDelete h n s).st.moduleImg = s.moduleImg := by
  unfold pDelete; cases h.deleteFail n <;> rfl

theorem pRename_img (h : Host) (old newName : String) (s : State) :
    (pRename h old newName s).st.moduleImg = s.moduleImg := by
  unfold pRename; cases h.renameFail old newName <;> rfl

theorem pGetLock_img (h : Host) (node attr : String) (s : State) :
    (pGetLock h node attr s).st.moduleImg = s.moduleImg := by
  unfold pGetLock; cases h.getLockFail node attr <;> rfl

theorem pSetRenderable_img (h : Host) (shape : String) (v : Int) (s : State) :
    (pSetRenderable h shape v s).st.moduleImg = s.moduleImg := by
  unfold pSetRenderable; cases h.setRenderableFail shape <;> rfl

theorem pDuplicate_img (h : Host) (n : String) (s : State) :
    (pDuplicate h n s).st.moduleImg = s.moduleImg := by
  unfold pDuplicate; cases h.duplicateFail n <;> rfl

theorem pSelect_img (h : Host) (items : List String) (s : State) :
    (pSelect h items s).st.moduleImg = s.moduleImg := by
  unfold pSelect; cases h.selectFail <;> rfl

theorem pExportFile_img (h : Host) (path : String) (s : State) :
    (pExportFile h path s).st.moduleImg = s.moduleImg := by
  unfold pExportFile; cases h.exportFail <;> rfl

theorem pImportFile_img (h : Host) (path : String) (s : State) :
    (pImportFile h path s).st.moduleImg = s.moduleImg := by
  unfold pImportFile; cases h.importFail <;> rfl

theorem pGetAttrNum_img (h : Host) (plug : String) (s : State) :
    (pGetAttrNum h plug s).st.moduleImg = s.moduleImg := by
  unfold pGetAttrNum; cases h.getAttrValFail plug <;> rfl

theorem pFirstCamShape_img (cam : String) (s : State) :
    (pFirstCamShape cam s).st.moduleImg = s.moduleImg := by
  unfold pFirstCamShape
  split
  · split <;> rfl
  · rfl

theorem list_cameras_img (s : State) : (list_cameras s).st.moduleImg = s.moduleImg := by
  simp only [list_cameras]
  cases hc : (collectParents s.scene (s.scene.camShapes.map (fun c => c.name))).2 with
  | error e => rfl
  | ok cams => simp [appendLoop_spec]

theorem resetRenderLoop_img (h : Host) (names : List String) (s : State) :
    (resetRenderLoop h names s).1.moduleImg = s.moduleImg := by
  rw [resetRenderLoop_state]

theorem create_camera_img (h : Host) (inp : DialogInput) (s : State) :
    (create_camera h inp s).st.moduleImg = s.moduleImg := by
  unfold create_camera
  rw [andThen_img _ _ (fun a s2 => list_cameras_img s2)]
  exact pCamera_img h s

theorem delete_camera_img (h : Host) (inp : DialogInput) (s : State) :
    (delete_camera h inp s).st.moduleImg = s.moduleImg := by
  unfold delete_camera
  split
  · rfl
  · split
    · simp only [HRv.withTr]
      rw [catchRuntime_img _ _ (fun e s2 => rfl)]
      rw [andThen_img _ _ (fun a s2 => list_cameras_img s2)]
      exact pDelete_img h _ s
    · rfl

theorem rename_camera_img (h : Host) (inp : DialogInput) (s : State) :
    (rename_camera h inp s).st.moduleImg = s.moduleImg := by
  unfold rename_camera
  split
  · rfl
  · split
    · dsimp only
      split
      · rfl
      · simp only [HRv.withTr]
        rw [catchRuntime_img _ _ (fun e s2 => rfl)]
        rw [andThen_img _ _ (fun a s2 => list_cameras_img s2)]
        exact pRename_img h _ inp.promptText s
    · rfl

theorem toggle_lock_camera_img (h : Host) (inp : DialogInput) (s : State) :
    (toggle_lock_camera h inp s).st.moduleImg = s.moduleImg := by
  unfold toggle_lock_camera
  split
  · rfl
  · simp only [HRv.withTr]
    rw [catchAll_img _ _ (fun e s2 => rfl)]
    rw [andThen_img _ _ (fun locked s1 => by
      rw [andThen_img _ _ (fun u s2 => rfl)]
      exact (setLockLoop_frame h _ (!locked) toggleAttrs s1).2.2.1)]
    exact pGetLock_img h _ "translateX" s

theorem export_cameras_img (h : Host) (inp : DialogInput) (s : State) :
    (export_cameras h inp s).st.moduleImg = s.moduleImg := by
  unfold export_cameras
  split
  · rfl
  · split
    · rfl
    · rfl
    · simp only [HRv.withTr]
      rw [catchAll_img _ _ (fun e s2 => rfl)]
      rw [andThen_img _ _ (fun u s1 => by
        rw [andThen_img _ _ (fun u2 s2 => rfl)]
        exact pExportFile_img h _ s1)]
      exact pSelect_img h _ s

theorem import_cameras_img (h : Host) (inp : DialogInput) (s : State) :
    (import_cameras h inp s).st.moduleImg = s.moduleImg := by
  unfold import_cameras
  split
  · rfl
  · rfl
  · simp only [HRv.withTr]
    rw [catchAll_img _ _ (fun e s2 => rfl)]
    rw [andThen_img _ _ (fun u s1 => by
      rw [andThen_img _ _ (fun u2 s2 => rfl)]
      exact list_cameras_img s1)]
    exact pImportFile_img h _ s

theorem set_renderable_camera_img (h : Host) (inp : DialogInput) (s : State) :
    (set_renderable_camera h inp s).st.moduleImg = s.moduleImg := by
  unfold set_renderable_camera
  split
  · rfl
  · simp only [HRv.withTr]
    rw [catchAll_img _ _ (fun e s2 => rfl)]
    rw [andThen_img _ _ (fun camShape s2 => by
      rw [andThen_img _ _ (fun u s3 => rfl)]
      exact pSetRenderable_img h camShape 1 s2)]
    rw [pFirstCamShape_img]
    exact resetRenderLoop_img h _ s

theorem duplicate_camera_img (h : Host) (inp : DialogInput) (s : State) :
    (duplicate_camera h inp s).st.moduleImg = s.moduleImg := by
  unfold duplicate_camera
  split
  · rfl
  · simp only [HRv.withTr]
    rw [catchAll_img _ _ (fun e s2 => rfl)]
    rw [andThen_img _ _ (fun newCam s1 => by
      rw [andThen_img _ _ (fun newName s2 => by
        rw [andThen_img _ _ (fun u s3 => rfl)]
        exact list_cameras_img s2)]
      exact pRename_img h newCam _ s1)]
    exact pDuplicate_img h _ s

theorem show_camera_info_img (h : Host) (inp : DialogInput) (s : State) :
    (show_camera_info h inp s).st.moduleImg = s.moduleImg := by
  unfold show_camera_info
  split
  · rfl
  · simp only [HRv.withTr]
    rw [catchAll_img _ _ (fun e s2 => rfl)]
    rw [andThen_img _ _ (fun camShape s1 => by
      rw [andThen_img _ _ (fun v2 s2 => by
        rw [andThen_img _ _ (fun v3 s3 => by
          rw [andThen_img _ _ (fun v4 s4 => by
            rw [andThen_img _ _ (fun v5 s5 => by
              rw [andThen_img _ _ (fun v6 s6 => by
                rw [andThen_img _ _ (fun v7 s7 => rfl)]
                exact pGetAttrNum_img h _ s6)]
              exact pGetAttrNum_img h _ s5)]
            exact pGetAttrNum_img h _ s4)]
          exact pGetAttrNum_img h _ s3)]
        exact pGetAttrNum_img h _ s2)]
      exact pGetAttrNum_img h _ s1)]
    exact pFirstCamShape_img _ s

/-- C6: the program owns no mutable module-level state: the only
module-level data binding is the constant `IMG_PATH` value carried in
`State.moduleImg`, and no handler (nor `list_cameras`, nor
`cam_manager_ui`) ever changes it — it is identical before and after
every invocation of every operation, on any host and any input. -/
theorem C6_no_module_state (h : Host) (inp : DialogInput) (s : State) :
    (create_camera h inp s).st.moduleImg = s.moduleImg ∧
    (delete_camera h inp s).st.moduleImg = s.moduleImg ∧
    (rename_camera h inp s).st.moduleImg = s.moduleImg ∧
    (toggle_lock_camera h inp s).st.moduleImg = s.moduleImg ∧
    (export_cameras h inp s).st.moduleImg = s.moduleImg ∧
    (import_cameras h inp s).st.moduleImg = s.moduleImg ∧
    (set_renderable_camera h inp s).st.moduleImg = s.moduleImg ∧
    (duplicate_camera h inp s).st.moduleImg = s.moduleImg ∧
    (show_camera_info h inp s).st.moduleImg = s.moduleImg ∧
    (list_cameras s).st.moduleImg = s.moduleImg ∧
    ((cam_manager_ui s).2).st.moduleImg = s.moduleImg :=
  ⟨create_camera_img h inp s, delete_camera_img h inp s, rename_camera_img h inp s,
   toggle_lock_camera_img h inp s, export_cameras_img h inp s, import_cameras_img h inp s,
   set_renderable_camera_img h inp s, duplicate_camera_img h inp s,
   show_camera_info_img h inp s, list_cameras_img s, list_cameras_img s⟩

theorem contains_of_mem {l : List String} {a : String} (h : a ∈ l) :
    l.contains a = true := by
  induction l with
  | nil => cases h
  | cons x t ih =>
    rcases List.mem_cons.mp h with rfl | ht
    · simp [List.contains_cons]
    · simp only [List.contains_cons, ih ht, Bool.or_true]

/-- C9: after a successful `set_renderable_camera` on the selected camera
`cam` whose first camera shape is `sh`, the `renderable` attribute of
`sh` is `1` and the `renderable` attribute of every other camera shape
whose reset the host accepted is `0`; hence among those shapes only `sh`
can be renderable. -/
theorem C9_single_renderable (h : Host) (inp : DialogInput) (s : State)
    (cam sh : String) (selRest shRest : List String)
    (hsel : s.selection = cam :: selRest)
    (hObj : s.scene.objExists cam = true)
    (hShapes : (s.scene.camShapes.filter (fun c => c.parent == cam)).map (fun c => c.name)
      = sh :: shRest)
    (hshOk : h.setRenderableFail sh = none) :
    (set_renderable_camera h inp s).res = .ok () ∧
    (∀ c ∈ (set_renderable_camera h inp s).st.scene.camShapes,
      c.name = sh → c.renderable = 1) ∧
    (∀ c ∈ (set_renderable_camera h inp s).st.scene.camShapes,
      c.name ≠ sh → h.setRenderableFail c.name = none → c.renderable = 0) ∧
    (∀ c ∈ (set_renderable_camera h inp s).st.scene.camShapes,
      c.renderable = 1 → h.setRenderableFail c.name = none → c.name = sh) := by
  obtain ⟨hshapes, htr, hres⟩ :=
    set_renderable_run_ok h inp s cam sh selRest shRest hsel hObj hShapes hshOk
  have hB : ∀ c ∈ (set_renderable_camera h inp s).st.scene.camShapes,
      c.name ≠ sh → h.setRenderableFail c.name = none → c.renderable = 0 := by
    intro c hc hne hnone
    rw [hshapes] at hc
    rcases List.mem_map.mp hc with ⟨c1, hc1, rfl⟩
    have hn1 : (if c1.name == sh then { c1 with renderable := 1 } else c1).name = c1.name := by
      split <;> rfl
    rw [hn1] at hne hnone
    have hb : (c1.name == sh) = false := by simpa using hne
    rw [if_neg (by simp [hb])]
    rcases List.mem_map.mp hc1 with ⟨c0, hc0, rfl⟩
    have hn0 : (resetShape h (List.map (fun c => c.name) s.scene.camShapes) c0).name
        = c0.name := resetShape_name _ _ _
    rw [hn0] at hnone
    have hcont : (List.map (fun c => c.name) s.scene.camShapes).contains c0.name = true :=
      contains_of_mem (List.mem_map_of_mem _ hc0)
    unfold resetShape
    rw [hcont, hnone]
    simp
  refine ⟨hres, ?_, hB, ?_⟩
  · intro c hc hname
    rw [hshapes] at hc
    rcases List.mem_map.mp hc with ⟨c1, hc1, rfl⟩
    have hn1 : (if c1.name == sh then { c1 with renderable := 1 } else c1).name = c1.name := by
      split <;> rfl
    rw [hn1] at hname
    have hb : (c1.name == sh) = true := by simpa using hname
    rw [if_pos hb]
  · intro c hc h1 hnone
    by_cases hne : c.name = sh
    · exact hne
    · have h0 := hB c hc hne hnone
      rw [h0] at h1
      exact absurd h1 (by decide)

/-- Witness for C9 at the concrete host `noFail` and state `st0`. -/
theorem C9_witness :
    (set_renderable_camera noFail inp0 st0).res = .ok () ∧
    (∀ c ∈ (set_renderable_camera noFail inp0 st0).st.scene.camShapes,
      c.name = "cam1Shape" → c.renderable = 1) ∧
    (∀ c ∈ (set_renderable_camera noFail inp0 st0).st.scene.camShapes,
      c.name ≠ "cam1Shape" → noFail.setRenderableFail c.name = none → c.renderable = 0) := by
  obtain ⟨h1, h2, h3, _⟩ := C9_single_renderable noFail inp0 st0 "cam1" "cam1Shape" [] []
    rfl (by decide) (by decide) rfl
  exact ⟨h1, h2, h3⟩

/-- C10 (amended): `toggle_lock_camera` reads the `translateX` lock flag
and sets all nine transform locks to its negation, so after one
successful call all nine equal the negation of the prior `translateX`
lock, and after a second successful call all nine equal the prior
`translateX` lock; the full original state is therefore restored when
the nine locks were initially all equal — but not in general, as
`C10_counterexample` shows for a mixed initial state. -/
theorem C10_toggle_lock (h : Host) (inp : DialogInput) (s : State) (cam : String)
    (selRest : List String) (hsel : s.selection = cam :: selRest)
    (hget : h.getLockFail cam "translateX" = none)
    (hset : ∀ a, h.setLockFail cam a = none) :
    (toggle_lock_camera h inp s).res = .ok () ∧
    (∀ a ∈ toggleAttrs, (toggle_lock_camera h inp s).st.scene.lockOf cam a
      = !s.scene.lockOf cam "translateX") ∧
    (toggle_lock_camera h inp (toggle_lock_camera h inp s).st).res = .ok () ∧
    (∀ a ∈ toggleAttrs,
      (toggle_lock_camera h inp (toggle_lock_camera h inp s).st).st.scene.lockOf cam a
        = s.scene.lockOf cam "translateX") ∧
    ((∀ a ∈ toggleAttrs, s.scene.lockOf cam a = s.scene.lockOf cam "translateX") →
      ∀ a ∈ toggleAttrs,
        (toggle_lock_camera h inp (toggle_lock_camera h inp s).st).st.scene.lockOf cam a
          = s.scene.lockOf cam a) := by
  have hrun1 := toggle_lock_run h inp s cam selRest hsel hget hset
  have hst1 : (toggle_lock_camera h inp s).st =
      (setLockLoop h cam (!s.scene.lockOf cam "translateX") toggleAttrs s).st := by
    rw [hrun1]
  have hres1 : (toggle_lock_camera h inp s).res = .ok () := by rw [hrun1]
  have hsel1 : (toggle_lock_camera h inp s).st.selection = cam :: selRest := by
    rw [hst1, (setLockLoop_frame h cam (!s.scene.lockOf cam "translateX") toggleAttrs s).2.1,
      hsel]
  have htXmem : "translateX" ∈ toggleAttrs := by decide
  have hlock1 : ∀ a ∈ toggleAttrs, (toggle_lock_camera h inp s).st.scene.lockOf cam a
      = !s.scene.lockOf cam "translateX" := by
    intro a ha
    rw [hst1]
    exact setLockLoop_lock_mem h cam _ toggleAttrs (fun a' _ => hset a') s a ha
  have hgl1 : (toggle_lock_camera h inp s).st.scene.lockOf cam "translateX"
      = !s.scene.lockOf cam "translateX" := hlock1 _ htXmem
  have hrun2 := toggle_lock_run h inp (toggle_lock_camera h inp s).st cam selRest hsel1
    hget hset
  have hres2 : (toggle_lock_camera h inp (toggle_lock_camera h inp s).st).res = .ok () := by
    rw [hrun2]
  have hb2 : (!(toggle_lock_camera h inp s).st.scene.lockOf cam "translateX")
      = s.scene.lockOf cam "translateX" := by
    rw [hgl1, Bool.not_not]
  have hlock2 : ∀ a ∈ toggleAttrs,
      (toggle_lock_camera h inp (toggle_lock_camera h inp s).st).st.scene.lockOf cam a
        = s.scene.lockOf cam "translateX" := by
    intro a ha
    have hst2 : (toggle_lock_camera h inp (toggle_lock_camera h inp s).st).st =
        (setLockLoop h cam (!(toggle_lock_camera h inp s).st.scene.lockOf cam "translateX")
          toggleAttrs (toggle_lock_camera h inp s).st).st := by
      rw [hrun2]
    rw [hst2, hb2]
    exact setLockLoop_lock_mem h cam _ toggleAttrs (fun a' _ => hset a') _ a ha
  refine ⟨hres1, hlock1, hres2, hlock2, ?_⟩
  intro hall a ha
  rw [hlock2 a ha, ← hall a ha]

/-- Witness for C10 at the concrete host `noFail` and state `st0`. -/
theorem C10_witness :
    st0.selection = ["cam1"] ∧
    (toggle_lock_camera noFail inp0 st0).res = .ok () ∧
    (∀ a ∈ toggleAttrs, (toggle_lock_camera noFail inp0 st0).st.scene.lockOf "cam1" a
      = !st0.scene.lockOf "cam1" "translateX") := by
  have hc := C10_toggle_lock noFail inp0 st0 "cam1" [] rfl rfl (fun _ => rfl)
  exact ⟨rfl, hc.1, hc.2.1⟩

end CameraManager
